import Mathlib

/-!
# Lua binding of the popen engine (`src/lua/popen.c`) and the uuid MsgPack codec
(`src/lib/core/mp_uuid.c`)

The binding functions are embedded as functions from the Lua arguments and the
state of the runtime to an `Outcome`.  The popen core (`core/popen.c`), the Lua
runtime and the allocator are external collaborators of the binding; they are
gathered in the record `Externals`, and the theorems about the binding hold
for all of them.  Only the double `delete` is decided by the core itself: it
is proved on a core written after the specification.  The definitions come
first (binding, core of the specification, sample inputs, uuid codec), the
theorems follow.
-/

namespace Popen

/-! ## Lua values -/

/-- Keys of a Lua table: the binding only meets numeric and string keys. -/
inductive LuaKey where
  | num (n : Int)
  | str (s : String)
  deriving DecidableEq, Repr

/-- Values of the Lua runtime that cross the binding.  Lua numbers are
modelled by integers (counts, flag masks, descriptors; a timeout is handed
to the core untouched, so its value plays no role).  A table is the list of
its key/value pairs in the order `lua_next` visits them. -/
inductive LuaVal where
  | nil
  | boolean (b : Bool)
  | number (n : Int)
  | string (s : String)
  | lightuserdata (p : Nat)
  | cdata (p : Nat)
  | error (type : String) (msg : String)
  | table (kv : List (LuaKey × LuaVal))

/-- What a binding function does with the control flow: it returns the values
it pushed (`ret`), raises a Lua error (`luaL_error`), or dies on a failed
`assert`; `undefined` marks a memory access outside an allocation. -/
inductive Outcome where
  | ret (vals : List LuaVal)
  | raise (msg : String)
  | abort
  | undefined

/-! ## State of the runtime and the external collaborators -/

/-- An entry of the diagnostics area: error type and message. -/
structure Diag where
  type : String
  msg : String
  deriving DecidableEq, Repr

/-- The mutable state the binding shares with the core: the state of the
core itself (process table, handles), `errno`, and the last error of the
diagnostics area. -/
structure Runtime (κ : Type) where
  core : κ
  errno : Int
  diag : Option Diag

/-- A slot of a `char **` array: not yet written after `malloc`, `NULL`, or
a pointer to a string. -/
inductive Slot where
  | uninit
  | null
  | str (s : String)
  deriving DecidableEq, Repr

/-- The fields of `struct popen_opts` the binding fills. `env = none` is the
`NULL` pointer. -/
structure popen_opts where
  argv : List Slot
  nr_argv : Nat
  env : Option (List Slot)
  flags : Nat
  deriving DecidableEq, Repr

/-- The fields of `struct popen_stat` the binding reads: `fds i` is
`fds[i]`. -/
structure popen_stat where
  pid : Int
  flags : Nat
  fds : Nat → Int

/-- A buffer argument of `write`: the bytes of a Lua string or a raw
pointer taken from a cdata. -/
inductive Buf where
  | ofString (s : String)
  | ptr (p : Nat)
  deriving DecidableEq, Repr

/-- Everything `src/lua/popen.c` calls and does not define: constants of
`core/popen.h`, the functions of the popen core, and the pieces of the Lua
runtime and of libc whose result the binding depends on.  A handle is the
address of a `struct popen_handle`; `0` is `NULL`. -/
structure Externals (κ : Type) where
  POPEN_FLAG_SHELL : Nat
  POPEN_STATE_MAX : Int
  strerror : Int → String
  lua_str2number : String → Option Int
  lua_number2str : Int → String
  malloc_ok : Nat → Bool
  lua_index_other : LuaVal → String → Except String LuaVal
  popen_new : popen_opts → Runtime κ → Nat × Runtime κ
  popen_delete : Nat → Runtime κ → Int × Runtime κ
  popen_send_signal : Nat → Int → Runtime κ → Int × Runtime κ
  popen_state : Nat → Runtime κ → (Int × Int × Int) × Runtime κ
  popen_stat : Nat → Runtime κ → (Int × popen_stat) × Runtime κ
  popen_command : Nat → Runtime κ → Option String
  popen_state_str : Int → Option String
  popen_read_timeout : Nat → Nat → Nat → Nat → Int → Runtime κ → Int × Runtime κ
  popen_write_timeout : Nat → Buf → Nat → Nat → Int → Runtime κ → Int × Runtime κ

/-! ## Machine integers -/

/-- Conversion of a Lua number to `size_t`. -/
def to_size_t (n : Int) : Nat := (n % 2 ^ 64).toNat

/-- Conversion of a Lua number to `unsigned int`. -/
def to_uint (n : Int) : Nat := (n % 2 ^ 32).toNat

/-- Conversion to `ssize_t` (two's complement on 64 bits). -/
def to_ssize_t (n : Int) : Int := (n + 2 ^ 63) % 2 ^ 64 - 2 ^ 63

/-! ## Lua stack helpers -/

variable {κ : Type}

/-- The value at the 1-based stack index `i`; absent arguments read as nil. -/
def lua_arg (args : List LuaVal) (i : Nat) : LuaVal :=
  args.getD (i - 1) LuaVal.nil

/-- Number at a stack slot as `lua_tonumber` yields it: 0 when the value is
neither a number nor a string convertible to one. -/
def lua_tonumber (x : Externals κ) : LuaVal → Int
  | LuaVal.number n => n
  | LuaVal.string s => (x.lua_str2number s).getD 0
  | _ => 0

/-- Test `lua_isnumber`: a number or a string convertible to one. -/
def lua_isnumber (x : Externals κ) : LuaVal → Bool
  | LuaVal.number _ => true
  | LuaVal.string s => (x.lua_str2number s).isSome
  | _ => false

/-- Test `lua_istable`. -/
def lua_istable : LuaVal → Bool
  | LuaVal.table _ => true
  | _ => false

/-- Result of `lua_tostring` as a `char *` slot: `NULL` unless the value is
a string or a number. -/
def lua_tostring (x : Externals κ) : LuaVal → Slot
  | LuaVal.string s => Slot.str s
  | LuaVal.number n => Slot.str (x.lua_number2str n)
  | _ => Slot.null

/-- Pointer of `lua_touserdata`: `NULL` (0) unless the value is a light
userdata. -/
def lua_touserdata : LuaVal → Nat
  | LuaVal.lightuserdata p => p
  | _ => 0

/-- Faults that end a binding function before its normal return. -/
inductive Fault where
  | raise (msg : String)
  | abort
  | undefined
  deriving DecidableEq, Repr

/-- The outcome a fault amounts to. -/
def Fault.toOutcome : Fault → Outcome
  | Fault.raise m => Outcome.raise m
  | Fault.abort => Outcome.abort
  | Fault.undefined => Outcome.undefined

/-- Field lookup `lua_pushstring(L, k); lua_gettable(L, -2)` on the value
`t`: the raw field of a table (nil when absent); indexing any other value is
left to the Lua runtime, which returns a value or raises an error. -/
def lua_gettable (x : Externals κ) (t : LuaVal) (k : String) :
    Except Fault LuaVal :=
  match t with
  | LuaVal.table kv =>
    match kv.find? (fun e => e.1 = LuaKey.str k) with
    | some e => Except.ok e.2
    | none => Except.ok LuaVal.nil
  | v =>
    match x.lua_index_other v k with
    | Except.ok r => Except.ok r
    | Except.error m => Except.error (Fault.raise m)

/-- The pairs `lua_next` visits on a value that passed `lua_istable`. -/
def lua_pairs : LuaVal → List (LuaKey × LuaVal)
  | LuaVal.table kv => kv
  | _ => []

/-- Assignment `lua_settable` with a string key: a nil value removes the
key, an existing key is overwritten in place, a new key is appended. -/
def lua_settable (kv : List (LuaKey × LuaVal)) (k : String) (v : LuaVal) :
    List (LuaKey × LuaVal) :=
  match v with
  | LuaVal.nil => kv.filter (fun e => e.1 ≠ LuaKey.str k)
  | _ =>
    if kv.any (fun e => e.1 = LuaKey.str k) then
      kv.map (fun e => if e.1 = LuaKey.str k then (e.1, v) else e)
    else kv ++ [(LuaKey.str k, v)]

/-- Push of `lua_pushstring`: nil for a `NULL` pointer. -/
def lua_pushstring : Option String → LuaVal
  | some s => LuaVal.string s
  | none => LuaVal.nil

/-! ## Error helpers (`popen.c` lines 153-180) -/

/-- Effect of `diag_set(SystemError, "popen: %s", strerror(errno))`. -/
def diag_set_syserror (x : Externals κ) (rt : Runtime κ) : Runtime κ :=
  { rt with diag := some ⟨"SystemError", "popen: " ++ x.strerror rt.errno⟩ }

/-- Helper `luaT_push_nil_and_error` of `lua/utils.h`: nil and the last error
of the diagnostics area, which has to exist. -/
def luaT_push_nil_and_error (rt : Runtime κ) : Outcome :=
  match rt.diag with
  | some e => Outcome.ret [LuaVal.nil, LuaVal.error e.type e.msg]
  | none => Outcome.abort

/-- Embedding of `luaT_popen_pushsyserror`. -/
def luaT_popen_pushsyserror (x : Externals κ) (rt : Runtime κ) :
    Outcome × Runtime κ :=
  let rt1 := diag_set_syserror x rt
  (luaT_push_nil_and_error rt1, rt1)

/-- Embedding of `luaT_popen_push_error`: sets the error and pushes it; the
list is what it pushes (one value). -/
def luaT_popen_push_error (x : Externals κ) (rt : Runtime κ) :
    List LuaVal × Runtime κ :=
  let rt1 := diag_set_syserror x rt
  ([LuaVal.error "SystemError" ("popen: " ++ x.strerror rt.errno)], rt1)

/-- Embedding of `luaT_popen_pushbool`: `true` for a true result, otherwise
nil and an error. -/
def luaT_popen_pushbool (x : Externals κ) (res : Bool) (rt : Runtime κ) :
    Outcome × Runtime κ :=
  if !res then
    let (e, rt1) := luaT_popen_push_error x rt
    (Outcome.ret (LuaVal.nil :: e), rt1)
  else (Outcome.ret [LuaVal.boolean true], rt)

/-- Helper `luaL_checkcdata` of `lua/utils.c` followed by the dereference
`*(char **)`: the pointer held by a cdata, or the message of the Lua error
raised for any other value. -/
def luaL_checkcdata (v : LuaVal) (idx : Nat) : Except String Nat :=
  match v with
  | LuaVal.cdata p => Except.ok p
  | _ => Except.error ("expected cdata as " ++ toString idx ++ " argument")

/-! ## `lbox_popen_read`, `lbox_popen_write` -/

/-- Embedding of `lbox_popen_read` (lines 370-388). -/
def lbox_popen_read (x : Externals κ) (args : List LuaVal) (rt : Runtime κ) :
    Outcome × Runtime κ :=
  let handle := lua_touserdata (lua_arg args 1)
  match luaL_checkcdata (lua_arg args 2) 2 with
  | Except.error m => (Outcome.raise m, rt)
  | Except.ok buf =>
    let count := to_size_t (lua_tonumber x (lua_arg args 3))
    let flags := to_uint (lua_tonumber x (lua_arg args 4))
    let timeout := lua_tonumber x (lua_arg args 5)
    let (ret, rt1) := x.popen_read_timeout handle buf count flags timeout rt
    if ret < 0 then luaT_popen_pushsyserror x rt1
    else (Outcome.ret [LuaVal.number ret], rt1)

/-- The buffer `lbox_popen_write` takes from its second argument:
`lua_tostring` first, and a cdata pointer when that gives `NULL`. -/
def write_buf (x : Externals κ) (v : LuaVal) : Except String Buf :=
  match lua_tostring x v with
  | Slot.str s => Except.ok (Buf.ofString s)
  | _ =>
    match luaL_checkcdata v 2 with
    | Except.ok p => Except.ok (Buf.ptr p)
    | Except.error m => Except.error m

/-- Embedding of `lbox_popen_write` (lines 400-417). The comparison
`ret == (ssize_t)count` is made on signed 64-bit values. -/
def lbox_popen_write (x : Externals κ) (args : List LuaVal) (rt : Runtime κ) :
    Outcome × Runtime κ :=
  let handle := lua_touserdata (lua_arg args 1)
  match write_buf x (lua_arg args 2) with
  | Except.error m => (Outcome.raise m, rt)
  | Except.ok buf =>
    let count := to_size_t (lua_tonumber x (lua_arg args 3))
    let flags := to_uint (lua_tonumber x (lua_arg args 4))
    let timeout := lua_tonumber x (lua_arg args 5)
    let (ret, rt1) := x.popen_write_timeout handle buf count flags timeout rt
    if ret < 0 then luaT_popen_pushsyserror x rt1
    else luaT_popen_pushbool x (decide (ret = to_ssize_t (count : Int))) rt1

/-- An outcome is an error result when it returns nil followed by an error
object. -/
def Outcome.isErrorResult : Outcome → Bool
  | Outcome.ret [LuaVal.nil, LuaVal.error _ _] => true
  | _ => false

/-! ## `lbox_popen_new` -/

/-- Allocation `malloc(size)` of an array of `char *`: `size / 8` slots, none
of them written yet; `none` when the allocator fails. -/
def malloc_slots (x : Externals κ) (size : Nat) : Option (List Slot) :=
  if x.malloc_ok size then some (List.replicate (size / 8) Slot.uninit) else none

/-- The store `a[i] = v`; a store outside the allocation is undefined. -/
def store (a : List Slot) (i : Nat) (v : Slot) : Except Fault (List Slot) :=
  if i < a.length then Except.ok (a.set i v) else Except.error Fault.undefined

/-- The loop of lines 240-244: for every entry `lua_next` yields, starting
with the index `i`, `assert(i < opts.nr_argv)`, store the string at
`argv[i]`, and increment the `size_t` index. -/
def fill_argv (x : Externals κ) (nr_argv : Nat) :
    List (LuaKey × LuaVal) → Nat → List Slot → Except Fault (List Slot)
  | [], _, a => Except.ok a
  | e :: rest, i, a =>
    if i < nr_argv then
      match store a i (lua_tostring x e.2) with
      | Except.ok a1 => fill_argv x nr_argv rest ((i + 1) % 2 ^ 64) a1
      | Except.error f => Except.error f
    else Except.error Fault.abort

/-- The loop of lines 283-287: for every entry `lua_next` yields, starting
with the index `i`, `assert((ssize_t)i <= nr_env)` and store the string at
`env[i]`. -/
def fill_env (x : Externals κ) (nr_env : Int) :
    List (LuaKey × LuaVal) → Nat → List Slot → Except Fault (List Slot)
  | [], _, a => Except.ok a
  | e :: rest, i, a =>
    if to_ssize_t (i : Int) ≤ nr_env then
      match store a i (lua_tostring x e.2) with
      | Except.ok a1 => fill_env x nr_env rest ((i + 1) % 2 ^ 64) a1
      | Except.error f => Except.error f
    else Except.error Fault.abort

/-- Lines 221-251 of `lbox_popen_new`: from the converted `argc` (already in
`nr_argv`), the flags and the options table `t`, the allocated and filled
argument vector together with the final `nr_argv`. -/
def build_argv (x : Externals κ) (flags : Nat) (nr_argv0 : Nat) (t : LuaVal) :
    Except Fault (List Slot × Nat) := do
  if nr_argv0 < 1 then
    throw (Fault.raise "fio.run: \x7bargc\x7d is too small")
  let nr_argv1 := (nr_argv0 + 1) % 2 ^ 64
  let nr_argv :=
    if flags &&& x.POPEN_FLAG_SHELL ≠ 0 then (nr_argv1 + 2) % 2 ^ 64 else nr_argv1
  let argv_size := (8 * nr_argv) % 2 ^ 64
  match malloc_slots x argv_size with
  | none => throw (Fault.raise "fio.run: can't allocate argv")
  | some a0 =>
    let argv ← lua_gettable x t "argv"
    let a1 ← fill_argv x nr_argv (lua_pairs argv) 2 a0
    let a2 ←
      if flags &&& x.POPEN_FLAG_SHELL ≠ 0 then do
        let b ← store a1 0 Slot.null
        store b 1 Slot.null
      else pure a1
    let a3 ← store a2 ((nr_argv + (2 ^ 64 - 1)) % 2 ^ 64) Slot.null
    pure (a3, nr_argv)

/-- Lines 253-297 of `lbox_popen_new`: the environment array built from the
`envc` and `env` fields of the options table `t`; `none` is `NULL`. -/
def build_env (x : Externals κ) (t : LuaVal) :
    Except Fault (Option (List Slot)) := do
  let envc ← lua_gettable x t "envc"
  if !lua_isnumber x envc then
    throw (Fault.raise "fio.run: \x7benvc=...\x7d is not a number")
  let nr_env := to_ssize_t (lua_tonumber x envc)
  if nr_env ≥ 0 then
    match malloc_slots x (to_size_t ((nr_env + 1) * 8)) with
    | none => throw (Fault.raise "fio.run: can't allocate env")
    | some e0 =>
      let env ← lua_gettable x t "env"
      if !lua_istable env then
        throw (Fault.raise "fio.run: \x7benv=...\x7d is not a table")
      let e1 ← fill_env x nr_env (lua_pairs env) 0 e0
      let e2 ← store e1 nr_env.toNat Slot.null
      pure (some e2)
  else pure none

/-- Lines 194-297 of `lbox_popen_new`: the `struct popen_opts` the function
builds from its arguments before it calls the spawner.  The fields are read
with index -2, that is from the value on top of the stack. -/
def lbox_popen_new_opts (x : Externals κ) (args : List LuaVal) :
    Except Fault popen_opts := do
  if args.length < 1 || !lua_istable (lua_arg args 1) then
    throw (Fault.raise "Usage: fio.run(\x7bopts\x7d])")
  let t := lua_arg args args.length
  let argv ← lua_gettable x t "argv"
  if !lua_istable argv then
    throw (Fault.raise "fio.run: \x7bargv=...\x7d is not a table")
  let flagsv ← lua_gettable x t "flags"
  if !lua_isnumber x flagsv then
    throw (Fault.raise "fio.run: \x7bflags=...\x7d is not a number")
  let flags := to_uint (lua_tonumber x flagsv)
  let argc ← lua_gettable x t "argc"
  if !lua_isnumber x argc then
    throw (Fault.raise "fio.run: \x7bargc=...\x7d is not a number")
  let (a, nr_argv) ← build_argv x flags (to_size_t (lua_tonumber x argc)) t
  let env ← build_env x t
  pure ⟨a, nr_argv, env, flags⟩

/-- What a call of `lbox_popen_new` amounts to: the options the spawner
`popen_new` was called with (`none` when it was not called), the outcome for
Lua, and the runtime afterwards. -/
structure NewResult (κ : Type) where
  spawned : Option popen_opts
  out : Outcome
  rt : Runtime κ

/-- Embedding of `lbox_popen_new` (lines 190-310). -/
def lbox_popen_new (x : Externals κ) (args : List LuaVal) (rt : Runtime κ) :
    NewResult κ :=
  match lbox_popen_new_opts x args with
  | Except.error f => ⟨none, f.toOutcome, rt⟩
  | Except.ok opts =>
    let (handle, rt1) := x.popen_new opts rt
    if handle = 0 then
      let (o, rt2) := luaT_popen_pushsyserror x rt1
      ⟨some opts, o, rt2⟩
    else ⟨some opts, Outcome.ret [LuaVal.lightuserdata handle], rt1⟩

/-- The value the core's `popen_read_timeout` reports for the call
`lbox_popen_read` makes with the buffer `buf`. -/
def underlying_read (x : Externals κ) (args : List LuaVal) (rt : Runtime κ)
    (buf : Nat) : Int :=
  (x.popen_read_timeout (lua_touserdata (lua_arg args 1)) buf
    (to_size_t (lua_tonumber x (lua_arg args 3)))
    (to_uint (lua_tonumber x (lua_arg args 4)))
    (lua_tonumber x (lua_arg args 5)) rt).1

/-- The value the core's `popen_write_timeout` reports for the call
`lbox_popen_write` makes with the buffer `buf`. -/
def underlying_write (x : Externals κ) (args : List LuaVal) (rt : Runtime κ)
    (buf : Buf) : Int :=
  (x.popen_write_timeout (lua_touserdata (lua_arg args 1)) buf
    (to_size_t (lua_tonumber x (lua_arg args 3)))
    (to_uint (lua_tonumber x (lua_arg args 4)))
    (lua_tonumber x (lua_arg args 5)) rt).1

/-- The `count` argument of a read or write call, as the `size_t` the
binding passes on. -/
def requested_count (x : Externals κ) (args : List LuaVal) : Nat :=
  to_size_t (lua_tonumber x (lua_arg args 3))

/-! ## `lbox_popen_info`, `lbox_popen_delete` -/

/-- Descriptor numbers of the standard streams (`unistd.h`). -/
def STDIN_FILENO : Nat := 0

/-- See `STDIN_FILENO`. -/
def STDOUT_FILENO : Nat := 1

/-- See `STDIN_FILENO`. -/
def STDERR_FILENO : Nat := 2

/-- Embedding of `lbox_popen_info` (lines 426-477): the stat query, the
state query, `assert(state < POPEN_STATE_MAX)`, then a new table filled by
eight `lua_settable` calls. -/
def lbox_popen_info (x : Externals κ) (args : List LuaVal) (rt : Runtime κ) :
    Outcome × Runtime κ :=
  let handle := lua_touserdata (lua_arg args 1)
  let (sres, rt1) := x.popen_stat handle rt
  if sres.1 ≠ 0 then luaT_popen_pushsyserror x rt1
  else
    let st := sres.2
    let (qres, rt2) := x.popen_state handle rt1
    let ret := qres.1
    let state := qres.2.1
    let exit_code := qres.2.2
    if ret < 0 then luaT_popen_pushsyserror x rt2
    else if ¬ state < x.POPEN_STATE_MAX then (Outcome.abort, rt2)
    else
      let t0 : List (LuaKey × LuaVal) := []
      let t1 := lua_settable t0 "pid" (LuaVal.number st.pid)
      let t2 := lua_settable t1 "command" (lua_pushstring (x.popen_command handle rt2))
      let t3 := lua_settable t2 "flags" (LuaVal.number (st.flags : Int))
      let t4 := lua_settable t3 "state" (lua_pushstring (x.popen_state_str state))
      let t5 := lua_settable t4 "exit_code" (LuaVal.number exit_code)
      let t6 := lua_settable t5 "stdin" (LuaVal.number (st.fds STDIN_FILENO))
      let t7 := lua_settable t6 "stdout" (LuaVal.number (st.fds STDOUT_FILENO))
      let t8 := lua_settable t7 "stderr" (LuaVal.number (st.fds STDERR_FILENO))
      (Outcome.ret [LuaVal.table t8], rt2)

/-- Embedding of `lbox_popen_delete` (lines 487-496). -/
def lbox_popen_delete (x : Externals κ) (args : List LuaVal) (rt : Runtime κ) :
    Outcome × Runtime κ :=
  let p := lua_touserdata (lua_arg args 1)
  if p = 0 then (Outcome.abort, rt)
  else
    let (r, rt1) := x.popen_delete p rt
    if r ≠ 0 then (luaT_push_nil_and_error rt1, rt1)
    else (Outcome.ret [LuaVal.boolean true], rt1)

/-! ## The popen core, from its specification

`core/popen.c` is not among the sources.  The definitions of this section
follow the specification of the Process Handle and of the operations `new`
and `delete`; they are used where a property is decided by the core and not
by the binding. -/

/-- Modelled from the spec: the state of a Process Handle (section 3,
`state`): ALIVE, EXITED or SIGNALED; `core/popen.h` is missing. -/
inductive HandleState where
  | ALIVE
  | EXITED
  | SIGNALED
  deriving DecidableEq, Repr

/-- Modelled from the spec: the Process Handle of section 3 (`struct
popen_handle` of the missing `core/popen.h`): pid, command line, flags, the
three stream descriptors (-1 when not applicable), state and exit code. -/
structure popen_handle where
  pid : Int
  command : String
  flags : Nat
  stream_fds : List Int
  state : HandleState
  exit_code : Int
  deriving DecidableEq, Repr

/-- Modelled from the spec: an operation of the core on a resource of the
operating system (Handle Registry/Teardown of section 2 and `delete` of
section 6; `core/popen.c` is
missing): forced termination, reaping, release of a descriptor. -/
inductive OsOp where
  | kill (pid : Int)
  | reap (pid : Int)
  | close (fd : Int)
  deriving DecidableEq, Repr

/-- Modelled from the spec: the state of the core (`core/popen.c` is
missing): the handles created and not yet deleted, by address; the
operations performed on resources of the operating system, latest first; and
the answer of the operating system to a spawn request (`none`: fork, pipe or
exec setup fails). -/
structure SpecCore where
  handles : List (Nat × popen_handle)
  os_log : List OsOp
  spawn : popen_opts → Option popen_handle

/-- Modelled from the spec: an address no registered handle has (the
allocation of a new `struct popen_handle`; `core/popen.c` is missing). -/
def fresh_addr (hs : List (Nat × popen_handle)) : Nat :=
  (hs.map Prod.fst).foldr max 0 + 1

/-- Modelled from the spec: `popen_new` of the missing `core/popen.c`
(section 4.1 and `new` of section 6): an empty `argv` is an invalid
argument, a failed fork/pipe/exec setup is a system error, and on success a
new handle in the state ALIVE is registered and returned. -/
def spec_popen_new (opts : popen_opts) (rt : Runtime SpecCore) :
    Nat × Runtime SpecCore :=
  if opts.nr_argv < 1 then
    (0, { rt with errno := 22, diag := some ⟨"IllegalParams", "popen: argv is empty"⟩ })
  else
    match rt.core.spawn opts with
    | none =>
      (0, { rt with errno := 11, diag := some ⟨"SystemError", "popen: can't spawn"⟩ })
    | some h =>
      let p := fresh_addr rt.core.handles
      (p, { rt with core :=
        { rt.core with
          handles := (p, { h with state := HandleState.ALIVE }) :: rt.core.handles } })

/-- Modelled from the spec: the operations `delete` performs on the
resources of a handle (section 6, `core/popen.c` is missing): a child that
is ALIVE is forcibly terminated and reaped, and every owned descriptor is
released. -/
def release_ops (h : popen_handle) : List OsOp :=
  (if h.state = HandleState.ALIVE then [OsOp.kill h.pid, OsOp.reap h.pid] else []) ++
    (h.stream_fds.filter (fun fd => 0 ≤ fd)).map OsOp.close

/-- Modelled from the spec: `popen_delete` of the missing `core/popen.c`
(`delete` of section 6 and the invariants of section 3): on a registered
handle it terminates the child if ALIVE, waits for the reap, releases the
descriptors, forgets the handle and returns 0; on a handle that is not
registered (already deleted) it touches nothing and fails with an error. -/
def spec_popen_delete (p : Nat) (rt : Runtime SpecCore) : Int × Runtime SpecCore :=
  match rt.core.handles.find? (fun e => e.1 = p) with
  | none =>
    (-1, { rt with errno := 3, diag := some ⟨"SystemError", "popen: no such handle"⟩ })
  | some e =>
    (0, { rt with core :=
      { rt.core with
        handles := rt.core.handles.filter (fun e2 => e2.1 ≠ p)
        os_log := (release_ops e.2).reverse ++ rt.core.os_log } })

/-! ## Sample collaborators used to evaluate the binding -/

/-- A core whose reads report `rd`, whose writes report `wr`, whose spawner
returns the handle `h`, and whose allocator never fails. -/
def sampleExternals (rd wr : Int) (h : Nat) : Externals Unit where
  POPEN_FLAG_SHELL := 512
  POPEN_STATE_MAX := 3
  strerror := fun _ => "Resource temporarily unavailable"
  lua_str2number := fun _ => none
  lua_number2str := fun _ => "0"
  malloc_ok := fun _ => true
  lua_index_other := fun _ _ => Except.error "attempt to index a non-table value"
  popen_new := fun _ rt => (h, rt)
  popen_delete := fun _ rt => (0, rt)
  popen_send_signal := fun _ _ rt => (0, rt)
  popen_state := fun _ rt => ((0, 1, 0), rt)
  popen_stat := fun _ rt => ((0, ⟨4242, 7, fun i => if i = 0 then 5 else if i = 1 then 6 else -1⟩), rt)
  popen_command := fun _ _ => some "sh -c ls"
  popen_state_str := fun _ => some "alive"
  popen_read_timeout := fun _ _ _ _ _ rt => (rd, rt)
  popen_write_timeout := fun _ _ _ _ _ rt => (wr, rt)

/-- The array-like Lua table holding the given strings at the keys 1, 2,
and so on. -/
def lua_sequence (l : List String) : LuaVal :=
  LuaVal.table (l.enum.map (fun e => (LuaKey.num ((e.1 : Int) + 1), LuaVal.string e.2)))

/-- The options table the Lua side passes to `new`: `argv` with its count
`argc`, `flags`, and `env` with its count `envc`. -/
def sampleOpts (flags : Int) (argv : List String) (argc : Int) (envc : Int)
    (env : List String) : LuaVal :=
  LuaVal.table [(LuaKey.str "argv", lua_sequence argv),
    (LuaKey.str "flags", LuaVal.number flags),
    (LuaKey.str "argc", LuaVal.number argc),
    (LuaKey.str "envc", LuaVal.number envc),
    (LuaKey.str "env", lua_sequence env)]

/-- The collaborators with the spawner and the destructor of the
specification; the other fields are those of `sampleExternals`. -/
def specExternals : Externals SpecCore where
  POPEN_FLAG_SHELL := 512
  POPEN_STATE_MAX := 3
  strerror := fun _ => "Resource temporarily unavailable"
  lua_str2number := fun _ => none
  lua_number2str := fun _ => "0"
  malloc_ok := fun _ => true
  lua_index_other := fun _ _ => Except.error "attempt to index a non-table value"
  popen_new := spec_popen_new
  popen_delete := spec_popen_delete
  popen_send_signal := fun _ _ rt => (0, rt)
  popen_state := fun _ rt => ((0, 1, 0), rt)
  popen_stat := fun _ rt => ((0, ⟨4242, 7, fun i => if i = 0 then 5 else if i = 1 then 6 else -1⟩), rt)
  popen_command := fun _ _ => some "sh -c ls"
  popen_state_str := fun _ => some "alive"
  popen_read_timeout := fun _ _ _ _ _ rt => (0, rt)
  popen_write_timeout := fun _ _ _ _ _ rt => (0, rt)

/-- A core with no handle, in which every spawn request starts the child
4242 with a pipe on its standard input. -/
def sampleSpecRuntime : Runtime SpecCore :=
  ⟨⟨[], [], fun o => some ⟨4242, "sh -c ls", o.flags, [5, -1, -1], HandleState.ALIVE, 0⟩⟩,
    0, none⟩

/-- Collaborators whose spawner keeps a record: the state of the core is
the list of the options `popen_new` was called with, in the order of the
calls, and the handle returned is the number of calls so far.  The other
fields are those of `sampleExternals`. -/
def recordingExternals : Externals (List popen_opts) where
  POPEN_FLAG_SHELL := 512
  POPEN_STATE_MAX := 3
  strerror := fun _ => "Resource temporarily unavailable"
  lua_str2number := fun _ => none
  lua_number2str := fun _ => "0"
  malloc_ok := fun _ => true
  lua_index_other := fun _ _ => Except.error "attempt to index a non-table value"
  popen_new := fun o rt => (rt.core.length + 1, { rt with core := rt.core ++ [o] })
  popen_delete := fun _ rt => (0, rt)
  popen_send_signal := fun _ _ rt => (0, rt)
  popen_state := fun _ rt => ((0, 1, 0), rt)
  popen_stat := fun _ rt => ((0, ⟨4242, 7, fun i => if i = 0 then 5 else if i = 1 then 6 else -1⟩), rt)
  popen_command := fun _ _ => some "sh -c ls"
  popen_state_str := fun _ => some "alive"
  popen_read_timeout := fun _ _ _ _ _ rt => (0, rt)
  popen_write_timeout := fun _ _ _ _ _ rt => (0, rt)

/-- A runtime in which the spawner has not been called yet. -/
def recordingRuntime : Runtime (List popen_opts) := ⟨[], 0, none⟩

/-- A runtime with no pending error. -/
def sampleRuntime : Runtime Unit := ⟨(), 11, none⟩

end Popen

/-! ## The uuid MsgPack codec (`src/lib/core/mp_uuid.c`)

Memory is a list of bytes and a `char *` is an offset into it.  The
functions of `msgpuck.h` (a third-party header, not among the sources) are
written after the MessagePack format of the `ext` family as that header
implements it; `tt_uuid_validate` and the constant `MP_UUID` (headers
`lib/uuid/tt_uuid.h` and `mp_extension_types.h`, not among the sources) are
parameters. -/

namespace MpUuid

/-- A byte of memory. -/
abbrev Byte := Fin 256

/-- The object representation of a `struct tt_uuid`: `sizeof` is 16. -/
structure tt_uuid where
  bytes : List Byte
  size : bytes.length = 16
  deriving DecidableEq

/-- The MsgPack types `mp_typeof` tells apart (`enum mp_type`). -/
inductive mp_type where
  | MP_NIL | MP_UINT | MP_INT | MP_STR | MP_BIN | MP_ARRAY | MP_MAP
  | MP_BOOL | MP_FLOAT | MP_DOUBLE | MP_EXT
  deriving DecidableEq, Repr

/-- The table `mp_type_hint` behind `mp_typeof`, by the first byte. -/
def mp_typeof (c : Byte) : mp_type :=
  if c.val ≤ 0x7f then mp_type.MP_UINT
  else if c.val ≤ 0x8f then mp_type.MP_MAP
  else if c.val ≤ 0x9f then mp_type.MP_ARRAY
  else if c.val ≤ 0xbf then mp_type.MP_STR
  else if c.val = 0xc0 then mp_type.MP_NIL
  else if c.val = 0xc1 then mp_type.MP_EXT
  else if c.val ≤ 0xc3 then mp_type.MP_BOOL
  else if c.val ≤ 0xc6 then mp_type.MP_BIN
  else if c.val ≤ 0xc9 then mp_type.MP_EXT
  else if c.val = 0xca then mp_type.MP_FLOAT
  else if c.val = 0xcb then mp_type.MP_DOUBLE
  else if c.val ≤ 0xcf then mp_type.MP_UINT
  else if c.val ≤ 0xd3 then mp_type.MP_INT
  else if c.val ≤ 0xd8 then mp_type.MP_EXT
  else if c.val ≤ 0xdb then mp_type.MP_STR
  else if c.val ≤ 0xdd then mp_type.MP_ARRAY
  else if c.val ≤ 0xdf then mp_type.MP_MAP
  else mp_type.MP_INT

/-- Size of the header `mp_encode_extl` writes for a payload of `len`
bytes (`mp_sizeof_extl`). -/
def mp_sizeof_extl (len : Nat) : Nat :=
  if len = 1 ∨ len = 2 ∨ len = 4 ∨ len = 8 ∨ len = 16 then 2
  else if len ≤ 0xff then 3
  else if len ≤ 0xffff then 4
  else 6

/-- Size of an encoded extension (`mp_sizeof_ext`). -/
def mp_sizeof_ext (len : Nat) : Nat := mp_sizeof_extl len + len

/-- The byte a value is stored as by `mp_store_u8`. -/
def u8 (n : Int) : Byte := ⟨(n % 256).toNat, by omega⟩

/-- The `int8_t` a byte is loaded as. -/
def i8 (b : Byte) : Int := if b.val < 128 then (b.val : Int) else (b.val : Int) - 256

/-- The header of an extension of type `type` and length `len`, as
`mp_encode_extl` stores it. -/
def mp_encode_extl (type : Int) (len : Nat) : List Byte :=
  (if len = 1 then [u8 0xd4]
   else if len = 2 then [u8 0xd5]
   else if len = 4 then [u8 0xd6]
   else if len = 8 then [u8 0xd7]
   else if len = 16 then [u8 0xd8]
   else if len ≤ 0xff then [u8 0xc7, u8 len]
   else if len ≤ 0xffff then [u8 0xc8, u8 (len / 256), u8 len]
   else [u8 0xc9, u8 (len / 16777216), u8 (len / 65536), u8 (len / 256), u8 len]) ++
  [u8 type]

/-- Store a run of bytes at the offset `data` (`memcpy` and the
`mp_store_*` family); `none` when the run does not fit the buffer. -/
def store_bytes (mem : List Byte) (data : Nat) (bs : List Byte) : Option (List Byte) :=
  if data + bs.length ≤ mem.length then
    some (mem.take data ++ bs ++ mem.drop (data + bs.length))
  else none

/-- Load one byte and advance (`mp_load_u8`); `none` outside the buffer. -/
def load_u8 (mem : List Byte) (data : Nat) : Option (Byte × Nat) :=
  match mem.drop data with
  | b :: _ => some (b, data + 1)
  | [] => none

/-- Load a big-endian number of `k` bytes and advance (`mp_load_u16`,
`mp_load_u32`). -/
def load_be (mem : List Byte) : Nat → Nat → Nat → Option (Nat × Nat)
  | 0, data, acc => some (acc, data)
  | k + 1, data, acc =>
    match load_u8 mem data with
    | some (b, d) => load_be mem k d (acc * 256 + b.val)
    | none => none

/-- Embedding of `mp_encode_ext`: header, then the payload; the result is
the memory and the position after the value. -/
def mp_encode_ext (mem : List Byte) (data : Nat) (type : Int) (str : List Byte) :
    Option (List Byte × Nat) :=
  match store_bytes mem data (mp_encode_extl type str.length) with
  | none => none
  | some m1 =>
    let d1 := data + (mp_encode_extl type str.length).length
    match store_bytes m1 d1 str with
    | none => none
    | some m2 => some (m2, d1 + str.length)

/-- Embedding of `mp_decode_extl`: the length, the type and the position
after the header; `none` when the first byte is no extension header
(`mp_unreachable`) or the header leaves the buffer. -/
def mp_decode_extl (mem : List Byte) (data : Nat) : Option (Nat × Int × Nat) :=
  match load_u8 mem data with
  | none => none
  | some (c, d1) =>
    let lenr : Option (Nat × Nat) :=
      if 0xd4 ≤ c.val ∧ c.val ≤ 0xd8 then some (2 ^ (c.val - 0xd4), d1)
      else if c.val = 0xc7 then load_be mem 1 d1 0
      else if c.val = 0xc8 then load_be mem 2 d1 0
      else if c.val = 0xc9 then load_be mem 4 d1 0
      else none
    match lenr with
    | none => none
    | some (len, d2) =>
      match load_u8 mem d2 with
      | none => none
      | some (t, d3) => some (len, i8 t, d3)

/-- Embedding of `mp_sizeof_uuid`. -/
def mp_sizeof_uuid : Nat := mp_sizeof_ext 16

/-- The 16 bytes at `data` as a uuid (`memcpy(uuid, *data, sizeof(*uuid))`);
`none` when they leave the buffer. -/
def load_uuid (mem : List Byte) (data : Nat) : Option tt_uuid :=
  if h : data + 16 ≤ mem.length then
    some ⟨(mem.drop data).take 16, by
      rw [List.length_take, List.length_drop]; omega⟩
  else none

/-- What a decoding function leaves behind: the returned pointer (`none` is
`NULL`, otherwise the decoded uuid it points to), the read cursor `*data`,
and the contents of the output argument `uuid`. -/
structure Decoded where
  ret : Option tt_uuid
  data : Nat
  uuid : tt_uuid
  deriving DecidableEq

/-- Embedding of `uuid_unpack` (lines 43-53); `none` is a read outside the
buffer. -/
def uuid_unpack (tt_uuid_validate : tt_uuid → Int) (mem : List Byte) (data : Nat)
    (len : Nat) (uuid : tt_uuid) : Option Decoded :=
  if len ≠ 16 then some ⟨none, data, uuid⟩
  else
    match load_uuid mem data with
    | none => none
    | some u =>
      if tt_uuid_validate u ≠ 0 then some ⟨none, data, u⟩
      else some ⟨some u, data + 16, u⟩

/-- Embedding of `mp_decode_uuid` (lines 55-69); `none` is a read outside
the buffer or `mp_unreachable`. -/
def mp_decode_uuid (tt_uuid_validate : tt_uuid → Int) (MP_UUID : Int)
    (mem : List Byte) (data : Nat) (uuid : tt_uuid) : Option Decoded :=
  match load_u8 mem data with
  | none => none
  | some (c, _) =>
    if mp_typeof c ≠ mp_type.MP_EXT then some ⟨none, data, uuid⟩
    else
      let svp := data
      match mp_decode_extl mem data with
      | none => none
      | some (len, type, d1) =>
        if type ≠ MP_UUID then some ⟨none, svp, uuid⟩
        else
          match uuid_unpack tt_uuid_validate mem d1 len uuid with
          | none => none
          | some r =>
            if r.ret = none then some ⟨none, svp, r.uuid⟩
            else some ⟨some r.uuid, r.data, r.uuid⟩

/-- Embedding of `mp_encode_uuid` (lines 71-75): the memory after the store
and the returned position; `none` when the value does not fit the buffer. -/
def mp_encode_uuid (MP_UUID : Int) (mem : List Byte) (data : Nat) (uuid : tt_uuid) :
    Option (List Byte × Nat) :=
  mp_encode_ext mem data MP_UUID uuid.bytes

/-- The uuid whose bytes are 0, 1, ..., 15. -/
def sampleUuid : tt_uuid := ⟨List.finRange 16 |>.map (fun i => ⟨i.val, by omega⟩), by simp⟩

/-- The nil uuid. -/
def nilUuid : tt_uuid := ⟨List.replicate 16 0, by simp⟩

/-- A uuid whose variant bits are invalid: every byte is 0xff. -/
def badUuid : tt_uuid := ⟨List.replicate 16 255, by simp⟩

/-- A validation in the manner of `tt_uuid_validate`: the variant bits of
byte 8 (`clock_seq_hi_and_reserved`) select NCS, RFC 4122 or Microsoft. -/
def sampleValidate (u : tt_uuid) : Int :=
  let n := (u.bytes.getD 8 0).val
  if n / 128 ≠ 0 ∧ n / 64 ≠ 2 ∧ n / 32 ≠ 6 then 1 else 0

end MpUuid


namespace Popen

variable {κ : Type}

/-! ## Theorems: read and write -/

theorem luaT_popen_pushsyserror_isError (x : Externals κ) (rt : Runtime κ) :
    (luaT_popen_pushsyserror x rt).1 =
      Outcome.ret [LuaVal.nil,
        LuaVal.error "SystemError" ("popen: " ++ x.strerror rt.errno)] := by
  simp [luaT_popen_pushsyserror, diag_set_syserror, luaT_push_nil_and_error]

/-- C1 (as stated, refuted): a write call whose underlying write transfers
3 of the 10 requested bytes returns nil and an error object, not a
successful result reporting 3 bytes. -/
theorem lbox_popen_write_partial_is_error :
    underlying_write (sampleExternals 0 3 0)
        [LuaVal.lightuserdata 1, LuaVal.string "0123456789", LuaVal.number 10,
          LuaVal.number 1, LuaVal.number 1] sampleRuntime
        (Buf.ofString "0123456789") = 3 ∧
    requested_count (sampleExternals 0 3 0)
        [LuaVal.lightuserdata 1, LuaVal.string "0123456789", LuaVal.number 10,
          LuaVal.number 1, LuaVal.number 1] = 10 ∧
    (lbox_popen_write (sampleExternals 0 3 0)
        [LuaVal.lightuserdata 1, LuaVal.string "0123456789", LuaVal.number 10,
          LuaVal.number 1, LuaVal.number 1] sampleRuntime).1 =
      Outcome.ret [LuaVal.nil,
        LuaVal.error "SystemError" "popen: Resource temporarily unavailable"] ∧
    (lbox_popen_write (sampleExternals 0 3 0)
        [LuaVal.lightuserdata 1, LuaVal.string "0123456789", LuaVal.number 10,
          LuaVal.number 1, LuaVal.number 1] sampleRuntime).1 ≠
      Outcome.ret [LuaVal.number 3] := by
  refine ⟨rfl, rfl, rfl, ?_⟩
  intro h
  have h2 : (lbox_popen_write (sampleExternals 0 3 0)
        [LuaVal.lightuserdata 1, LuaVal.string "0123456789", LuaVal.number 10,
          LuaVal.number 1, LuaVal.number 1] sampleRuntime).1 =
      Outcome.ret [LuaVal.nil,
        LuaVal.error "SystemError" "popen: Resource temporarily unavailable"] := rfl
  rw [h2] at h
  simp at h


theorem to_size_t_lt (n : Int) : to_size_t n < 2 ^ 64 := by
  unfold to_size_t
  omega

theorem lbox_popen_write_unfold (x : Externals κ) (args : List LuaVal)
    (rt : Runtime κ) (buf : Buf) (hbuf : write_buf x (lua_arg args 2) = Except.ok buf) :
    lbox_popen_write x args rt =
      if underlying_write x args rt buf < 0 then
        luaT_popen_pushsyserror x
          (x.popen_write_timeout (lua_touserdata (lua_arg args 1)) buf
            (to_size_t (lua_tonumber x (lua_arg args 3)))
            (to_uint (lua_tonumber x (lua_arg args 4)))
            (lua_tonumber x (lua_arg args 5)) rt).2
      else
        luaT_popen_pushbool x
          (decide (underlying_write x args rt buf =
            to_ssize_t (requested_count x args : Int)))
          (x.popen_write_timeout (lua_touserdata (lua_arg args 1)) buf
            (to_size_t (lua_tonumber x (lua_arg args 3)))
            (to_uint (lua_tonumber x (lua_arg args 4)))
            (lua_tonumber x (lua_arg args 5)) rt).2 := by
  simp only [lbox_popen_write, hbuf, underlying_write, requested_count]

/-- C1 (amended): for every write call that reaches the underlying write,
the result is the single value `true` exactly when the underlying write
reports a non-negative n equal to the requested count (compared as signed
64-bit values); in every other case, in particular for every partial transfer
0 <= n < count, the result is nil followed by an error object. The number of
bytes written is never part of the result. -/
theorem lbox_popen_write_result (x : Externals κ) (args : List LuaVal)
    (rt : Runtime κ) (buf : Buf)
    (hbuf : write_buf x (lua_arg args 2) = Except.ok buf) :
    (0 ≤ underlying_write x args rt buf →
      underlying_write x args rt buf = to_ssize_t (requested_count x args : Int) →
      (lbox_popen_write x args rt).1 = Outcome.ret [LuaVal.boolean true]) ∧
    (underlying_write x args rt buf ≠ to_ssize_t (requested_count x args : Int) →
      (lbox_popen_write x args rt).1.isErrorResult = true) ∧
    (underlying_write x args rt buf < 0 →
      (lbox_popen_write x args rt).1.isErrorResult = true) ∧
    ((0 ≤ underlying_write x args rt buf ∧
      (underlying_write x args rt buf : Int) < (requested_count x args : Int)) →
      (lbox_popen_write x args rt).1.isErrorResult = true) ∧
    (∀ n : Int, (lbox_popen_write x args rt).1 ≠ Outcome.ret [LuaVal.number n]) := by
  have hb : requested_count x args < 2 ^ 64 := to_size_t_lt _
  have hne : ∀ r : Int, 0 ≤ r → r < (requested_count x args : Int) →
      r ≠ to_ssize_t (requested_count x args : Int) := by
    intro r h0 h1 h2
    unfold to_ssize_t at h2
    omega
  rw [lbox_popen_write_unfold x args rt buf hbuf]
  refine ⟨?_, ?_, ?_, ?_, ?_⟩
  · intro h0 heq
    have : ¬ underlying_write x args rt buf < 0 := by omega
    rw [if_neg this]
    simp [heq, luaT_popen_pushbool]
  · intro hne2
    by_cases hneg : underlying_write x args rt buf < 0
    · simp [hneg, luaT_popen_pushsyserror_isError, Outcome.isErrorResult]
    · simp [hneg, hne2, luaT_popen_pushbool, luaT_popen_push_error,
        Outcome.isErrorResult]
  · intro hneg
    simp [hneg, luaT_popen_pushsyserror_isError, Outcome.isErrorResult]
  · rintro ⟨h0, h1⟩
    have hneg : ¬ underlying_write x args rt buf < 0 := by omega
    have := hne _ h0 h1
    simp [hneg, this, luaT_popen_pushbool, luaT_popen_push_error,
      Outcome.isErrorResult]
  · intro n
    by_cases hneg : underlying_write x args rt buf < 0
    · simp [hneg, luaT_popen_pushsyserror_isError]
    · by_cases heq : underlying_write x args rt buf =
          to_ssize_t (requested_count x args : Int)
      · rw [if_neg hneg]
        simp [heq, luaT_popen_pushbool]
      · simp [hneg, heq, luaT_popen_pushbool, luaT_popen_push_error]

/-- Witness of C1 (amended): a string buffer, 3 of 10 bytes transferred. -/
theorem lbox_popen_write_result_witness :
    (lbox_popen_write (sampleExternals 0 3 0)
        [LuaVal.lightuserdata 1, LuaVal.string "0123456789", LuaVal.number 10,
          LuaVal.number 1, LuaVal.number 1] sampleRuntime).1.isErrorResult = true :=
  (lbox_popen_write_result (sampleExternals 0 3 0)
      [LuaVal.lightuserdata 1, LuaVal.string "0123456789", LuaVal.number 10,
        LuaVal.number 1, LuaVal.number 1] sampleRuntime
      (Buf.ofString "0123456789") rfl).2.2.2.1 ⟨by decide, by decide⟩

theorem lbox_popen_read_unfold (x : Externals κ) (args : List LuaVal)
    (rt : Runtime κ) (buf : Nat) (hbuf : lua_arg args 2 = LuaVal.cdata buf) :
    lbox_popen_read x args rt =
      if underlying_read x args rt buf < 0 then
        luaT_popen_pushsyserror x
          (x.popen_read_timeout (lua_touserdata (lua_arg args 1)) buf
            (to_size_t (lua_tonumber x (lua_arg args 3)))
            (to_uint (lua_tonumber x (lua_arg args 4)))
            (lua_tonumber x (lua_arg args 5)) rt).2
      else
        (Outcome.ret [LuaVal.number (underlying_read x args rt buf)],
          (x.popen_read_timeout (lua_touserdata (lua_arg args 1)) buf
            (to_size_t (lua_tonumber x (lua_arg args 3)))
            (to_uint (lua_tonumber x (lua_arg args 4)))
            (lua_tonumber x (lua_arg args 5)) rt).2) := by
  simp only [lbox_popen_read, hbuf, luaL_checkcdata, underlying_read]

/-- C5: for every read call that reaches the underlying read, the result is
an error (nil and an error object) exactly when the underlying read reports a
negative value, and when it reports n >= 0 the result is the byte count n.
Hence an end of stream (n = 0) gives the successful result 0, which differs
from the result of every call whose underlying read failed (timeout or any
other failure). -/
theorem lbox_popen_read_result (x : Externals κ) (args : List LuaVal)
    (rt : Runtime κ) (buf : Nat) (hbuf : lua_arg args 2 = LuaVal.cdata buf) :
    ((lbox_popen_read x args rt).1.isErrorResult = true ↔
      underlying_read x args rt buf < 0) ∧
    (0 ≤ underlying_read x args rt buf →
      (lbox_popen_read x args rt).1 =
        Outcome.ret [LuaVal.number (underlying_read x args rt buf)]) ∧
    (underlying_read x args rt buf = 0 →
      (lbox_popen_read x args rt).1 = Outcome.ret [LuaVal.number 0] ∧
      ∀ (x2 : Externals κ) (args2 : List LuaVal) (rt2 : Runtime κ) (buf2 : Nat),
        lua_arg args2 2 = LuaVal.cdata buf2 →
        underlying_read x2 args2 rt2 buf2 < 0 →
        (lbox_popen_read x2 args2 rt2).1 ≠ (lbox_popen_read x args rt).1) := by
  rw [lbox_popen_read_unfold x args rt buf hbuf]
  refine ⟨?_, ?_, ?_⟩
  · by_cases hneg : underlying_read x args rt buf < 0
    · simp [hneg, luaT_popen_pushsyserror_isError, Outcome.isErrorResult]
    · simp [hneg, Outcome.isErrorResult]
  · intro h0
    have hneg : ¬ underlying_read x args rt buf < 0 := by omega
    simp [hneg]
  · intro h0
    have hneg : ¬ underlying_read x args rt buf < 0 := by omega
    refine ⟨by simp [hneg, h0], ?_⟩
    intro x2 args2 rt2 buf2 hbuf2 hneg2
    rw [lbox_popen_read_unfold x2 args2 rt2 buf2 hbuf2]
    simp [hneg, hneg2, luaT_popen_pushsyserror_isError]

/-- Witness of C5: a read that meets the end of the stream. -/
theorem lbox_popen_read_result_witness :
    (lbox_popen_read (sampleExternals 0 0 0)
        [LuaVal.lightuserdata 1, LuaVal.cdata 4096, LuaVal.number 16,
          LuaVal.number 2, LuaVal.number 1] sampleRuntime).1 =
      Outcome.ret [LuaVal.number 0] :=
  ((lbox_popen_read_result (sampleExternals 0 0 0)
      [LuaVal.lightuserdata 1, LuaVal.cdata 4096, LuaVal.number 16,
        LuaVal.number 2, LuaVal.number 1] sampleRuntime 4096 rfl).2.2 rfl).1


/-! ## Lemmas on the array loops -/

theorem take_succ_set (a : List Slot) (i : Nat) (v : Slot) (h : i < a.length) :
    (a.set i v).take (i + 1) = a.take i ++ [v] := by
  induction a generalizing i with
  | nil => simp at h
  | cons b bs ih =>
    cases i with
    | zero => simp
    | succ j =>
      simp only [List.length_cons, Nat.add_lt_add_iff_right] at h
      simp [ih j h]

theorem set_length_append (s : List Slot) (u v : Slot) :
    (s ++ [u]).set s.length v = s ++ [v] := by
  induction s with
  | nil => simp
  | cons b bs ih => simp [ih]

theorem fill_argv_ok (x : Externals κ) (nr : Nat) (hnr : nr < 2 ^ 64) :
    ∀ (l : List (LuaKey × LuaVal)) (i : Nat) (a : List Slot),
      i + l.length ≤ nr → i + l.length ≤ a.length →
      fill_argv x nr l i a =
        Except.ok (a.take i ++ l.map (fun e => lua_tostring x e.2) ++
          a.drop (i + l.length)) := by
  intro l
  induction l with
  | nil => intro i a _ _; simp [fill_argv]
  | cons e rest ih =>
    intro i a h1 h2
    simp only [List.length_cons] at h1 h2
    have hi : i < nr := by omega
    have hia : i < a.length := by omega
    have hmod : (i + 1) % 2 ^ 64 = i + 1 := Nat.mod_eq_of_lt (by omega)
    simp only [fill_argv, if_pos hi, store, if_pos hia, hmod]
    rw [ih (i + 1) (a.set i (lua_tostring x e.2)) (by omega)
      (by rw [List.length_set]; omega)]
    rw [take_succ_set a i _ hia, List.drop_set_of_lt _ _ (by omega)]
    have : i + 1 + rest.length = i + (rest.length + 1) := by omega
    simp [this]

theorem fill_argv_abort (x : Externals κ) (nr : Nat) :
    ∀ (l : List (LuaKey × LuaVal)) (i : Nat) (a : List Slot),
      i ≤ nr → nr < i + l.length → nr ≤ a.length → nr < 2 ^ 64 →
      fill_argv x nr l i a = Except.error Fault.abort := by
  intro l
  induction l with
  | nil => intro i a h1 h2; simp at h2; omega
  | cons e rest ih =>
    intro i a h1 h2 h3 h4
    simp only [List.length_cons] at h2
    by_cases hi : i < nr
    · have hia : i < a.length := by omega
      have hmod : (i + 1) % 2 ^ 64 = i + 1 := Nat.mod_eq_of_lt (by omega)
      simp only [fill_argv, if_pos hi, store, if_pos hia, hmod]
      exact ih (i + 1) _ (by omega) (by omega) (by rw [List.length_set]; omega) h4
    · simp only [fill_argv, if_neg hi]

theorem fill_env_ok (x : Externals κ) (nr : Int) (hnr : nr < 2 ^ 63) :
    ∀ (l : List (LuaKey × LuaVal)) (i : Nat) (a : List Slot),
      ((i + l.length : Nat) : Int) ≤ nr + 1 → i + l.length ≤ a.length →
      fill_env x nr l i a =
        Except.ok (a.take i ++ l.map (fun e => lua_tostring x e.2) ++
          a.drop (i + l.length)) := by
  intro l
  induction l with
  | nil => intro i a _ _; simp [fill_env]
  | cons e rest ih =>
    intro i a h1 h2
    simp only [List.length_cons] at h1 h2
    have hi : to_ssize_t (i : Int) ≤ nr := by unfold to_ssize_t; omega
    have hia : i < a.length := by omega
    have hmod : (i + 1) % 2 ^ 64 = i + 1 := Nat.mod_eq_of_lt (by omega)
    simp only [fill_env, if_pos hi, store, if_pos hia, hmod]
    rw [ih (i + 1) (a.set i (lua_tostring x e.2)) (by omega)
      (by rw [List.length_set]; omega)]
    rw [take_succ_set a i _ hia, List.drop_set_of_lt _ _ (by omega)]
    have : i + 1 + rest.length = i + (rest.length + 1) := by omega
    simp [this]

/-- The strings a table holds, as `lua_tostring` returns them, when all its
values are strings. -/
theorem map_tostring_strings (x : Externals κ) (kv : List (LuaKey × LuaVal))
    (strs : List String) (h : kv.map Prod.snd = strs.map LuaVal.string) :
    kv.map (fun e => lua_tostring x e.2) = strs.map Slot.str := by
  have : kv.map (fun e => lua_tostring x e.2) =
      (kv.map Prod.snd).map (lua_tostring x) := by simp
  rw [this, h]
  simp [lua_tostring]


/-! ## Lemmas on the argument vector -/

/-- With the shell flag, `n >= 1` entries in the `argv` table and `argc = n`,
the argument vector is `NULL, NULL`, the entries, `NULL`. -/
theorem build_argv_shell (x : Externals κ) (flags n : Nat) (t : LuaVal)
    (kv : List (LuaKey × LuaVal))
    (hshell : flags &&& x.POPEN_FLAG_SHELL ≠ 0)
    (hargv : lua_gettable x t "argv" = Except.ok (LuaVal.table kv))
    (hn : kv.length = n) (h1 : 1 ≤ n) (hb : n < 2 ^ 60) :
    build_argv x flags n t =
      if x.malloc_ok (8 * (n + 3)) then
        Except.ok ([Slot.null, Slot.null] ++
          kv.map (fun e => lua_tostring x e.2) ++ [Slot.null], n + 3)
      else Except.error (Fault.raise "fio.run: can't allocate argv") := by
  have e1 : (n + 1) % 2 ^ 64 = n + 1 := Nat.mod_eq_of_lt (by omega)
  have e2 : (n + 1 + 2) % 2 ^ 64 = n + 3 := Nat.mod_eq_of_lt (by omega)
  have e3 : (8 * (n + 3)) % 2 ^ 64 = 8 * (n + 3) := Nat.mod_eq_of_lt (by omega)
  have e4 : (n + 3 + (2 ^ 64 - 1)) % 2 ^ 64 = n + 2 := by omega
  have e5 : 8 * (n + 3) / 8 = n + 3 := by omega
  have hlt : ¬ n < 1 := by omega
  unfold build_argv
  simp only [hlt, if_false, e1, if_pos hshell, e2, e3, malloc_slots, e5]
  by_cases hm : x.malloc_ok (8 * (n + 3)) = true
  · simp only [hm, if_true, hargv, lua_pairs]
    have hfill := fill_argv_ok x (n + 3) (by omega) kv 2
      (List.replicate (n + 3) Slot.uninit) (by omega) (by simp; omega)
    simp only [bind, Except.bind, pure, Except.pure, hfill]
    have ht : List.take 2 (List.replicate (n + 3) Slot.uninit) =
        [Slot.uninit, Slot.uninit] := by
      rw [List.take_replicate]
      have : min 2 (n + 3) = 2 := by omega
      rw [this]; rfl
    have hd : List.drop (2 + kv.length) (List.replicate (n + 3) Slot.uninit) =
        [Slot.uninit] := by
      rw [hn, List.drop_replicate]
      have : n + 3 - (2 + n) = 1 := by omega
      rw [this]; rfl
    generalize hM : kv.map (fun e => lua_tostring x e.2) = M
    have hMl : M.length = n := by rw [← hM, List.length_map, hn]
    have hset : (M ++ [Slot.uninit]).set n Slot.null = M ++ [Slot.null] := by
      rw [← hMl]; exact set_length_append M _ _
    simp only [ht, hd, e4, store]
    simp [hMl, hset]
  · simp only [hm]
    rfl


/-- Without the shell flag, `n >= 1` entries in the `argv` table and
`argc = n`, the loop that fills the argument vector stops at a failed
`assert(i < opts.nr_argv)`. -/
theorem build_argv_noshell (x : Externals κ) (flags n : Nat) (t : LuaVal)
    (kv : List (LuaKey × LuaVal))
    (hshell : flags &&& x.POPEN_FLAG_SHELL = 0)
    (hargv : lua_gettable x t "argv" = Except.ok (LuaVal.table kv))
    (hn : kv.length = n) (h1 : 1 ≤ n) (hb : n < 2 ^ 60) :
    build_argv x flags n t =
      if x.malloc_ok (8 * (n + 1)) then Except.error Fault.abort
      else Except.error (Fault.raise "fio.run: can't allocate argv") := by
  have e1 : (n + 1) % 2 ^ 64 = n + 1 := Nat.mod_eq_of_lt (by omega)
  have e3 : (8 * (n + 1)) % 2 ^ 64 = 8 * (n + 1) := Nat.mod_eq_of_lt (by omega)
  have e5 : 8 * (n + 1) / 8 = n + 1 := by omega
  have hlt : ¬ n < 1 := by omega
  have hsh : ¬ (flags &&& x.POPEN_FLAG_SHELL ≠ 0) := by simp [hshell]
  unfold build_argv
  simp only [hlt, if_false, e1, if_neg hsh, e3, malloc_slots, e5]
  by_cases hm : x.malloc_ok (8 * (n + 1)) = true
  · simp only [hm, if_true, hargv, lua_pairs]
    have hfill := fill_argv_abort x (n + 1) kv 2
      (List.replicate (n + 1) Slot.uninit) (by omega) (by omega) (by simp)
      (by omega)
    simp only [bind, Except.bind, pure, Except.pure, hfill]
  · simp only [hm]
    rfl

/-- The options `lbox_popen_new` builds for a single table argument whose
`flags` and `argc` fields are numbers and whose `argv` field is a table. -/
theorem lbox_popen_new_opts_eq (x : Externals κ) (t : LuaVal)
    (kv : List (LuaKey × LuaVal)) (f c : Int)
    (ht : lua_istable t = true)
    (hargv : lua_gettable x t "argv" = Except.ok (LuaVal.table kv))
    (hflags : lua_gettable x t "flags" = Except.ok (LuaVal.number f))
    (hargc : lua_gettable x t "argc" = Except.ok (LuaVal.number c)) :
    lbox_popen_new_opts x [t] =
      match build_argv x (to_uint f) (to_size_t c) t with
      | Except.error e => Except.error e
      | Except.ok (a, nr_argv) =>
        match build_env x t with
        | Except.error e => Except.error e
        | Except.ok env => Except.ok ⟨a, nr_argv, env, to_uint f⟩ := by
  unfold lbox_popen_new_opts
  simp only [List.length_singleton, lua_arg, Nat.sub_self, List.getD_cons_zero, ht,
    hargv, hflags, hargc, lua_isnumber, lua_tonumber, bind, Except.bind,
    pure, Except.pure]
  simp only [lua_istable]
  generalize build_argv x (to_uint f) (to_size_t c) t = r
  cases r with
  | error e => simp
  | ok v =>
    cases v
    cases build_env x t <;> rfl


theorem to_size_t_natCast (n : Nat) (h : n < 2 ^ 64) : to_size_t (n : Int) = n := by
  unfold to_size_t
  omega

theorem toOption_eq_some {ε α : Type} (r : Except ε α) (a : α)
    (h : r.toOption = some a) : r = Except.ok a := by
  cases r with
  | error e => simp [Except.toOption] at h
  | ok v =>
    simp only [Except.toOption, Option.some.injEq] at h
    rw [h]

/-- The spawner is called exactly when the options could be built, and then
with these options. -/
theorem lbox_popen_new_spawned (x : Externals κ) (args : List LuaVal)
    (rt : Runtime κ) :
    (lbox_popen_new x args rt).spawned = (lbox_popen_new_opts x args).toOption := by
  unfold lbox_popen_new
  cases lbox_popen_new_opts x args with
  | error e => rfl
  | ok o =>
    simp only [Except.toOption]
    split <;> rfl

/-- When `lbox_popen_new` has built the options `po`, what it returns to
Lua and the runtime it leaves are those of the call `popen_new(&opts)` on
exactly these options (lines 299-309): `NULL` gives nil and a system error,
any other pointer is returned as a light userdata. -/
theorem lbox_popen_new_calls_spawner (x : Externals κ) (args : List LuaVal)
    (rt : Runtime κ) (po : popen_opts)
    (h : (lbox_popen_new x args rt).spawned = some po) :
    (lbox_popen_new x args rt).rt =
      (if (x.popen_new po rt).1 = 0 then
        (luaT_popen_pushsyserror x (x.popen_new po rt).2).2
      else (x.popen_new po rt).2) ∧
    (lbox_popen_new x args rt).out =
      (if (x.popen_new po rt).1 = 0 then
        (luaT_popen_pushsyserror x (x.popen_new po rt).2).1
      else Outcome.ret [LuaVal.lightuserdata (x.popen_new po rt).1]) := by
  have hopts : lbox_popen_new_opts x args = Except.ok po := by
    rw [lbox_popen_new_spawned] at h
    cases hr : lbox_popen_new_opts x args with
    | error e => simp [hr, Except.toOption] at h
    | ok v =>
      simp only [hr, Except.toOption, Option.some.injEq] at h
      rw [h]
  unfold lbox_popen_new
  rw [hopts]
  by_cases h0 : (x.popen_new po rt).1 = 0
  · simp [h0]
  · simp [h0]

/-- When `lbox_popen_new` does not get as far as the spawner, it leaves the
runtime as it found it and ends with the fault met while it built the
options. -/
theorem lbox_popen_new_not_spawned (x : Externals κ) (args : List LuaVal)
    (rt : Runtime κ) (h : (lbox_popen_new x args rt).spawned = none) :
    (lbox_popen_new x args rt).rt = rt ∧
    ∃ f, lbox_popen_new_opts x args = Except.error f ∧
      (lbox_popen_new x args rt).out = f.toOutcome := by
  rw [lbox_popen_new_spawned] at h
  cases hr : lbox_popen_new_opts x args with
  | error e =>
    unfold lbox_popen_new
    rw [hr]
    exact ⟨rfl, e, rfl, rfl⟩
  | ok v => simp [hr, Except.toOption] at h

/-! ## Theorems: the argument vector of `new` -/

/-- C9: for every options table with the shell flag set, an `argv` table of
n >= 1 strings and `argc = n`, whenever `new` calls the spawner the argument
vector it hands over has length n + 3: two empty (`NULL`) leading slots
reserved for "sh" and "-c", the n strings in their order at positions
2..n+1, and the terminator `NULL` at position n+2.  These options are the
argument of the call `popen_new`: the runtime `new` leaves and the values it
returns are those of `popen_new` applied to them, for every spawner.  And
`new` does call the spawner with this vector as soon as the vector can be
allocated and the environment can be built. -/
theorem lbox_popen_new_argv_shell (x : Externals κ) (t : LuaVal) (rt : Runtime κ)
    (kv : List (LuaKey × LuaVal)) (strs : List String) (f : Int)
    (ht : lua_istable t = true)
    (hargv : lua_gettable x t "argv" = Except.ok (LuaVal.table kv))
    (hstrs : kv.map Prod.snd = strs.map LuaVal.string)
    (hflags : lua_gettable x t "flags" = Except.ok (LuaVal.number f))
    (hshell : to_uint f &&& x.POPEN_FLAG_SHELL ≠ 0)
    (hargc : lua_gettable x t "argc" = Except.ok (LuaVal.number (strs.length : Int)))
    (h1 : 1 ≤ strs.length) (hb : strs.length < 2 ^ 60) :
    (∀ po : popen_opts, (lbox_popen_new x [t] rt).spawned = some po →
      po.nr_argv = strs.length + 3 ∧ po.argv.length = strs.length + 3 ∧
      po.argv = [Slot.null, Slot.null] ++ strs.map Slot.str ++ [Slot.null] ∧
      (lbox_popen_new x [t] rt).rt =
        (if (x.popen_new po rt).1 = 0 then
          (luaT_popen_pushsyserror x (x.popen_new po rt).2).2
        else (x.popen_new po rt).2) ∧
      (lbox_popen_new x [t] rt).out =
        (if (x.popen_new po rt).1 = 0 then
          (luaT_popen_pushsyserror x (x.popen_new po rt).2).1
        else Outcome.ret [LuaVal.lightuserdata (x.popen_new po rt).1])) ∧
    (x.malloc_ok (8 * (strs.length + 3)) = true →
      ∀ env, build_env x t = Except.ok env →
        (lbox_popen_new x [t] rt).spawned =
          some ⟨[Slot.null, Slot.null] ++ strs.map Slot.str ++ [Slot.null],
            strs.length + 3, env, to_uint f⟩ ∧
        (lbox_popen_new x [t] rt).rt =
          (if (x.popen_new
                ⟨[Slot.null, Slot.null] ++ strs.map Slot.str ++ [Slot.null],
                  strs.length + 3, env, to_uint f⟩ rt).1 = 0 then
            (luaT_popen_pushsyserror x (x.popen_new
                ⟨[Slot.null, Slot.null] ++ strs.map Slot.str ++ [Slot.null],
                  strs.length + 3, env, to_uint f⟩ rt).2).2
          else (x.popen_new
                ⟨[Slot.null, Slot.null] ++ strs.map Slot.str ++ [Slot.null],
                  strs.length + 3, env, to_uint f⟩ rt).2) ∧
        (lbox_popen_new x [t] rt).out =
          (if (x.popen_new
                ⟨[Slot.null, Slot.null] ++ strs.map Slot.str ++ [Slot.null],
                  strs.length + 3, env, to_uint f⟩ rt).1 = 0 then
            (luaT_popen_pushsyserror x (x.popen_new
                ⟨[Slot.null, Slot.null] ++ strs.map Slot.str ++ [Slot.null],
                  strs.length + 3, env, to_uint f⟩ rt).2).1
          else Outcome.ret [LuaVal.lightuserdata (x.popen_new
                ⟨[Slot.null, Slot.null] ++ strs.map Slot.str ++ [Slot.null],
                  strs.length + 3, env, to_uint f⟩ rt).1])) := by
  have hn : kv.length = strs.length := by
    have := congrArg List.length hstrs
    simpa using this
  have hsz := to_size_t_natCast strs.length (by omega)
  have hbuild := build_argv_shell x (to_uint f) strs.length t kv hshell hargv hn h1 hb
  rw [map_tostring_strings x kv strs hstrs] at hbuild
  have hopts := lbox_popen_new_opts_eq x t kv f _ ht hargv hflags hargc
  rw [hsz, hbuild] at hopts
  constructor
  · intro po hsp
    have hcall : (lbox_popen_new x [t] rt).rt =
        (if (x.popen_new po rt).1 = 0 then
          (luaT_popen_pushsyserror x (x.popen_new po rt).2).2
        else (x.popen_new po rt).2) ∧
      (lbox_popen_new x [t] rt).out =
        (if (x.popen_new po rt).1 = 0 then
          (luaT_popen_pushsyserror x (x.popen_new po rt).2).1
        else Outcome.ret [LuaVal.lightuserdata (x.popen_new po rt).1]) := by
      have hok : lbox_popen_new_opts x [t] = Except.ok po :=
        toOption_eq_some _ _ (by rw [← lbox_popen_new_spawned x [t] rt]; exact hsp)
      unfold lbox_popen_new
      rw [hok]
      by_cases h0 : (x.popen_new po rt).1 = 0
      · simp [h0]
      · simp [h0]
    rw [lbox_popen_new_spawned, hopts] at hsp
    by_cases hm : x.malloc_ok (8 * (strs.length + 3)) = true
    · simp only [hm, if_true] at hsp
      cases henv : build_env x t with
      | error e => simp [henv, Except.toOption] at hsp
      | ok env =>
        simp only [henv, Except.toOption, Option.some.injEq] at hsp
        subst hsp
        refine ⟨rfl, by simp, rfl, hcall.1, hcall.2⟩
    · simp [hm, Except.toOption] at hsp
  · intro hm env henv
    have hsp : (lbox_popen_new x [t] rt).spawned =
        some ⟨[Slot.null, Slot.null] ++ strs.map Slot.str ++ [Slot.null],
          strs.length + 3, env, to_uint f⟩ := by
      rw [lbox_popen_new_spawned, hopts]
      simp only [hm, if_true, henv, Except.toOption]
    have hok : lbox_popen_new_opts x [t] =
        Except.ok ⟨[Slot.null, Slot.null] ++ strs.map Slot.str ++ [Slot.null],
          strs.length + 3, env, to_uint f⟩ := by
      rw [hopts]
      simp only [hm, if_true, henv]
    have key : ∀ po : popen_opts, lbox_popen_new_opts x [t] = Except.ok po →
        (lbox_popen_new x [t] rt).rt =
          (if (x.popen_new po rt).1 = 0 then
            (luaT_popen_pushsyserror x (x.popen_new po rt).2).2
          else (x.popen_new po rt).2) ∧
        (lbox_popen_new x [t] rt).out =
          (if (x.popen_new po rt).1 = 0 then
            (luaT_popen_pushsyserror x (x.popen_new po rt).2).1
          else Outcome.ret [LuaVal.lightuserdata (x.popen_new po rt).1]) := by
      intro po hpo
      unfold lbox_popen_new
      rw [hpo]
      by_cases h0 : (x.popen_new po rt).1 = 0
      · simp [h0]
      · simp [h0]
    exact ⟨hsp, (key _ hok).1, (key _ hok).2⟩

/-- Witness of C9: `argv = ("ls", "-l")` run through the shell, with a
spawner that records the options it is called with. -/
theorem lbox_popen_new_argv_shell_witness :
    (lbox_popen_new recordingExternals
        [sampleOpts 512 ["ls", "-l"] 2 (-1) []] recordingRuntime).rt.core =
      [⟨[Slot.null, Slot.null, Slot.str "ls", Slot.str "-l", Slot.null], 5,
        none, 512⟩] ∧
    (lbox_popen_new recordingExternals
        [sampleOpts 512 ["ls", "-l"] 2 (-1) []] recordingRuntime).out =
      Outcome.ret [LuaVal.lightuserdata 1] ∧
    (⟨[Slot.null, Slot.null, Slot.str "ls", Slot.str "-l", Slot.null], 5,
        none, 512⟩ : popen_opts).argv =
      [Slot.null, Slot.null] ++ ["ls", "-l"].map Slot.str ++ [Slot.null] :=
  ⟨by rfl, by rfl, ((lbox_popen_new_argv_shell recordingExternals
      (sampleOpts 512 ["ls", "-l"] 2 (-1) []) recordingRuntime
      [(LuaKey.num 1, LuaVal.string "ls"), (LuaKey.num 2, LuaVal.string "-l")]
      ["ls", "-l"] 512
      rfl rfl rfl rfl (by decide) rfl (by decide) (by decide)).1
      ⟨[Slot.null, Slot.null, Slot.str "ls", Slot.str "-l", Slot.null], 5, none, 512⟩
      (by rfl)).2.2.1⟩

/-- C2 (evaluation at the failing input): with the shell flag unset,
`argv = ("ls")` and `argc = 1`, `new` never reaches the spawner: the first
entry is stored at index 2 of a vector of `nr_argv = 2` slots, so
`assert(i < opts.nr_argv)` fails. -/
theorem lbox_popen_new_noshell_ls :
    (lbox_popen_new (sampleExternals 0 0 7)
        [sampleOpts 0 ["ls"] 1 (-1) []] sampleRuntime).spawned = none ∧
    (lbox_popen_new (sampleExternals 0 0 7)
        [sampleOpts 0 ["ls"] 1 (-1) []] sampleRuntime).out = Outcome.abort :=
  ⟨rfl, rfl⟩

/-- C10 (what the code does instead): for every flags value with the shell
bit unset and every `argv` table holding exactly `argc >= 1` entries, once
the vector is allocated the filling loop reaches an index that is not below
`nr_argv`: `new` ends at the failed `assert(i < opts.nr_argv)` and the
spawner is not called. -/
theorem lbox_popen_new_noshell_assert (x : Externals κ) (t : LuaVal) (rt : Runtime κ)
    (kv : List (LuaKey × LuaVal)) (f : Int)
    (ht : lua_istable t = true)
    (hargv : lua_gettable x t "argv" = Except.ok (LuaVal.table kv))
    (hflags : lua_gettable x t "flags" = Except.ok (LuaVal.number f))
    (hshell : to_uint f &&& x.POPEN_FLAG_SHELL = 0)
    (hargc : lua_gettable x t "argc" = Except.ok (LuaVal.number (kv.length : Int)))
    (h1 : 1 ≤ kv.length) (hb : kv.length < 2 ^ 60)
    (hm : x.malloc_ok (8 * (kv.length + 1)) = true) :
    (lbox_popen_new x [t] rt).out = Outcome.abort ∧
    (lbox_popen_new x [t] rt).spawned = none := by
  have hsz := to_size_t_natCast kv.length (by omega)
  have hbuild := build_argv_noshell x (to_uint f) kv.length t kv hshell hargv rfl h1 hb
  have hopts := lbox_popen_new_opts_eq x t kv f _ ht hargv hflags hargc
  rw [hsz, hbuild] at hopts
  simp only [hm, if_true] at hopts
  unfold lbox_popen_new
  rw [hopts]
  exact ⟨rfl, rfl⟩

/-- Witness of C10: `argv = ("ls", "-l")`, `argc = 2`, no flag set. -/
theorem lbox_popen_new_noshell_assert_witness :
    (lbox_popen_new (sampleExternals 0 0 7)
        [sampleOpts 0 ["ls", "-l"] 2 (-1) []] sampleRuntime).out = Outcome.abort :=
  (lbox_popen_new_noshell_assert (sampleExternals 0 0 7)
      (sampleOpts 0 ["ls", "-l"] 2 (-1) []) sampleRuntime
      [(LuaKey.num 1, LuaVal.string "ls"), (LuaKey.num 2, LuaVal.string "-l")] 0
      rfl rfl rfl (by decide) rfl (by decide) (by decide) rfl).1

/-- C4 (as stated, refuted): an options table whose `argv` table is empty
but whose `argc` is 1 is not rejected: `new` calls the spawner, with a vector
whose slot for the command was never written, and returns the handle. -/
theorem lbox_popen_new_empty_argv_argc_one :
    lua_gettable recordingExternals (sampleOpts 512 [] 1 (-1) []) "argv" =
      Except.ok (LuaVal.table []) ∧
    (lbox_popen_new recordingExternals
        [sampleOpts 512 [] 1 (-1) []] recordingRuntime).rt.core =
      [⟨[Slot.null, Slot.null, Slot.uninit, Slot.null], 4, none, 512⟩] ∧
    (lbox_popen_new recordingExternals
        [sampleOpts 512 [] 1 (-1) []] recordingRuntime).out =
      Outcome.ret [LuaVal.lightuserdata 1] ∧
    (lbox_popen_new recordingExternals
        [sampleOpts 512 [] 1 (-1) []] recordingRuntime).out ≠
      Outcome.raise "fio.run: \x7bargc\x7d is too small" :=
  ⟨by rfl, by rfl, by rfl, by
    have h : (lbox_popen_new recordingExternals
        [sampleOpts 512 [] 1 (-1) []] recordingRuntime).out =
      Outcome.ret [LuaVal.lightuserdata 1] := by rfl
    rw [h]
    simp⟩

/-- C4 (amended): for every options table whose `argv` table is empty and
whose `argc` is its length 0, `new` raises an error, returns no handle and
does not call the spawner: the runtime is left as it was; when `flags` is a
number the error is the one of the `argc` check. -/
theorem lbox_popen_new_empty_argv (x : Externals κ) (t : LuaVal) (rt : Runtime κ)
    (kv : List (LuaKey × LuaVal))
    (ht : lua_istable t = true)
    (hargv : lua_gettable x t "argv" = Except.ok (LuaVal.table kv))
    (hempty : kv = [])
    (hargc : lua_gettable x t "argc" = Except.ok (LuaVal.number (kv.length : Int))) :
    (lbox_popen_new x [t] rt).spawned = none ∧
    (lbox_popen_new x [t] rt).rt = rt ∧
    (∃ msg, (lbox_popen_new x [t] rt).out = Outcome.raise msg) ∧
    (∀ fv, lua_gettable x t "flags" = Except.ok fv → lua_isnumber x fv = true →
      (lbox_popen_new x [t] rt).out =
        Outcome.raise "fio.run: \x7bargc\x7d is too small") := by
  subst hempty
  have hz : to_size_t (((([] : List (LuaKey × LuaVal)).length : Nat) : Int)) = 0 := by
    simp [to_size_t]
  have key : ∀ fv, lua_gettable x t "flags" = Except.ok fv →
      lbox_popen_new_opts x [t] =
        if lua_isnumber x fv = true then
          Except.error (Fault.raise "fio.run: \x7bargc\x7d is too small")
        else Except.error (Fault.raise "fio.run: \x7bflags=...\x7d is not a number") := by
    intro fv hfv
    unfold lbox_popen_new_opts
    have hcn : lua_isnumber x (LuaVal.number ((([] : List (LuaKey × LuaVal)).length : Nat) : Int))
        = true := rfl
    simp only [List.length_singleton, lua_arg, Nat.sub_self, List.getD_cons_zero, ht,
      hargv, hfv, hargc, hcn, lua_tonumber, bind, Except.bind,
      pure, Except.pure, hz, build_argv]
    simp only [lua_istable]
    by_cases hnum : lua_isnumber x fv = true
    · simp [hnum]
    · simp [hnum]
  obtain ⟨fv, hfv⟩ : ∃ fv, lua_gettable x t "flags" = Except.ok fv := by
    cases t with
    | table fields =>
      simp only [lua_gettable]
      split <;> simp
    | _ => simp [lua_istable] at ht
  have hk := key fv hfv
  have hnone : (lbox_popen_new x [t] rt).spawned = none := by
    rw [lbox_popen_new_spawned, hk]
    split <;> rfl
  have hrt : (lbox_popen_new x [t] rt).rt = rt := by
    unfold lbox_popen_new
    rw [hk]
    by_cases hnum : lua_isnumber x fv = true
    · rw [if_pos hnum]
    · rw [if_neg hnum]
  refine ⟨hnone, hrt, ?_, ?_⟩
  · unfold lbox_popen_new
    rw [hk]
    by_cases hnum : lua_isnumber x fv = true
    · rw [if_pos hnum]; exact ⟨_, rfl⟩
    · rw [if_neg hnum]; exact ⟨_, rfl⟩
  · intro fv2 hfv2 hnum
    unfold lbox_popen_new
    rw [key fv2 hfv2, if_pos hnum]
    rfl

/-- Witness of C4: an empty `argv` with `argc = 0`; the spawner that records
its calls has recorded none. -/
theorem lbox_popen_new_empty_argv_witness :
    (lbox_popen_new recordingExternals
        [sampleOpts 512 [] 0 (-1) []] recordingRuntime).rt = recordingRuntime :=
  (lbox_popen_new_empty_argv recordingExternals
      (sampleOpts 512 [] 0 (-1) []) recordingRuntime [] rfl rfl rfl rfl).2.1


/-! ## Lemmas on the environment -/

/-- The environment of the options `lbox_popen_new` builds is the one built
from the `envc` and `env` fields of the table on top of the stack. -/
theorem lbox_popen_new_opts_env (x : Externals κ) (args : List LuaVal)
    (po : popen_opts) (h : lbox_popen_new_opts x args = Except.ok po) :
    build_env x (lua_arg args args.length) = Except.ok po.env := by
  unfold lbox_popen_new_opts at h
  simp only [bind, Except.bind, pure, Except.pure] at h
  repeat' split at h
  all_goals try simp at h
  subst h
  assumption

theorem to_ssize_t_id (c : Int) (h1 : -2 ^ 63 ≤ c) (h2 : c < 2 ^ 63) :
    to_ssize_t c = c := by
  unfold to_ssize_t
  omega

/-- A negative `envc` leaves the environment pointer `NULL`. -/
theorem build_env_absent (x : Externals κ) (t : LuaVal) (c : Int)
    (henvc : lua_gettable x t "envc" = Except.ok (LuaVal.number c))
    (h1 : -2 ^ 63 ≤ c) (h2 : c < 0) :
    build_env x t = Except.ok none := by
  have hc := to_ssize_t_id c h1 (by omega)
  have hneg : ¬ c ≥ 0 := by omega
  unfold build_env
  simp only [henvc, bind, Except.bind, pure, Except.pure, lua_isnumber, lua_tonumber, hc,
    if_neg hneg]
  rfl

/-- With `envc = n >= 0` and an `env` table of n entries the environment is
the n entries followed by `NULL`. -/
theorem build_env_present (x : Externals κ) (t : LuaVal) (c : Int) (n : Nat)
    (kv : List (LuaKey × LuaVal))
    (henvc : lua_gettable x t "envc" = Except.ok (LuaVal.number c))
    (henv : lua_gettable x t "env" = Except.ok (LuaVal.table kv))
    (hcn : c = (n : Int)) (hn : kv.length = n) (hb : n < 2 ^ 60) :
    build_env x t =
      if x.malloc_ok (8 * (n + 1)) then
        Except.ok (some (kv.map (fun e => lua_tostring x e.2) ++ [Slot.null]))
      else Except.error (Fault.raise "fio.run: can't allocate env") := by
  have hc := to_ssize_t_id c (by omega) (by omega)
  have hpos : c ≥ 0 := by omega
  have hsz : to_size_t ((c + 1) * 8) = 8 * (n + 1) := by
    unfold to_size_t; omega
  have hnat : c.toNat = n := by omega
  have e5 : 8 * (n + 1) / 8 = n + 1 := by omega
  unfold build_env
  simp only [henvc, bind, Except.bind, pure, Except.pure, lua_isnumber, lua_tonumber, hc,
    if_pos hpos, hsz, malloc_slots, e5, hnat]
  by_cases hm : x.malloc_ok (8 * (n + 1)) = true
  · simp only [hm, if_true, henv, lua_pairs, lua_istable]
    have hfill := fill_env_ok x c (by omega) kv 0
      (List.replicate (n + 1) Slot.uninit) (by omega) (by simp; omega)
    have hd : List.drop (0 + kv.length) (List.replicate (n + 1) Slot.uninit) =
        [Slot.uninit] := by
      rw [hn, List.drop_replicate]
      have : n + 1 - (0 + n) = 1 := by omega
      rw [this]; rfl
    rw [hd] at hfill
    generalize hM : kv.map (fun e => lua_tostring x e.2) = M at hfill
    have hMl : M.length = n := by rw [← hM, List.length_map, hn]
    have hset : (M ++ [Slot.uninit]).set n Slot.null = M ++ [Slot.null] := by
      rw [← hMl]; exact set_length_append M _ _
    simp only [hfill, store]
    simp [hMl, hset]
  · simp only [hm]
    rfl


/-! ## Theorems: the environment of `new` -/

/-- C3: for every options table passed to `new` with a numeric `envc`,
whenever `new` calls the spawner: a negative `envc` (environment absent)
hands over no environment (`NULL`, inherit); an `envc = n >= 0` with an `env`
table of n strings hands over exactly these n strings in order followed by
the terminator `NULL`; so a present but empty environment (n = 0) gives the
terminator-only array, which differs from the absent one.  The options with
this environment are the argument of the call `popen_new`: the runtime `new`
leaves and the values it returns are those of `popen_new` applied to them,
for every spawner.  And `new` does
call the spawner with this environment as soon as the argument vector could
be built and the environment array can be allocated. -/
theorem lbox_popen_new_env (x : Externals κ) (t : LuaVal) (rt : Runtime κ)
    (c : Int)
    (henvc : lua_gettable x t "envc" = Except.ok (LuaVal.number c)) :
    (∀ po : popen_opts, (lbox_popen_new x [t] rt).spawned = some po →
      ((-2 ^ 63 ≤ c ∧ c < 0) → po.env = none) ∧
      (∀ (kv : List (LuaKey × LuaVal)) (strs : List String),
        lua_gettable x t "env" = Except.ok (LuaVal.table kv) →
        kv.map Prod.snd = strs.map LuaVal.string →
        c = (strs.length : Int) → strs.length < 2 ^ 60 →
        po.env = some (strs.map Slot.str ++ [Slot.null])) ∧
      (c = 0 → lua_gettable x t "env" = Except.ok (LuaVal.table []) →
        po.env = some [Slot.null]) ∧
      (lbox_popen_new x [t] rt).rt =
        (if (x.popen_new po rt).1 = 0 then
          (luaT_popen_pushsyserror x (x.popen_new po rt).2).2
        else (x.popen_new po rt).2) ∧
      (lbox_popen_new x [t] rt).out =
        (if (x.popen_new po rt).1 = 0 then
          (luaT_popen_pushsyserror x (x.popen_new po rt).2).1
        else Outcome.ret [LuaVal.lightuserdata (x.popen_new po rt).1])) ∧
    (some [Slot.null] : Option (List Slot)) ≠ none ∧
    (∀ (akv : List (LuaKey × LuaVal)) (f cnt : Int) (a : List Slot) (nr : Nat),
      lua_istable t = true →
      lua_gettable x t "argv" = Except.ok (LuaVal.table akv) →
      lua_gettable x t "flags" = Except.ok (LuaVal.number f) →
      lua_gettable x t "argc" = Except.ok (LuaVal.number cnt) →
      build_argv x (to_uint f) (to_size_t cnt) t = Except.ok (a, nr) →
      ((-2 ^ 63 ≤ c ∧ c < 0) →
        (lbox_popen_new x [t] rt).spawned = some ⟨a, nr, none, to_uint f⟩) ∧
      (∀ (kv : List (LuaKey × LuaVal)) (strs : List String),
        lua_gettable x t "env" = Except.ok (LuaVal.table kv) →
        kv.map Prod.snd = strs.map LuaVal.string →
        c = (strs.length : Int) → strs.length < 2 ^ 60 →
        x.malloc_ok (8 * (strs.length + 1)) = true →
        (lbox_popen_new x [t] rt).spawned =
          some ⟨a, nr, some (strs.map Slot.str ++ [Slot.null]), to_uint f⟩)) := by
  have present : ∀ (kv : List (LuaKey × LuaVal)) (strs : List String),
      lua_gettable x t "env" = Except.ok (LuaVal.table kv) →
      kv.map Prod.snd = strs.map LuaVal.string →
      c = (strs.length : Int) → strs.length < 2 ^ 60 →
      build_env x t =
        if x.malloc_ok (8 * (strs.length + 1)) then
          Except.ok (some (strs.map Slot.str ++ [Slot.null]))
        else Except.error (Fault.raise "fio.run: can't allocate env") := by
    intro kv strs henv hstrs hc hb
    have hn : kv.length = strs.length := by
      have := congrArg List.length hstrs
      simpa using this
    have hbuild := build_env_present x t c strs.length kv henvc henv hc hn hb
    rw [map_tostring_strings x kv strs hstrs] at hbuild
    exact hbuild
  refine ⟨?_, by simp, ?_⟩
  · intro po hsp
    have hcall : (lbox_popen_new x [t] rt).rt =
        (if (x.popen_new po rt).1 = 0 then
          (luaT_popen_pushsyserror x (x.popen_new po rt).2).2
        else (x.popen_new po rt).2) ∧
      (lbox_popen_new x [t] rt).out =
        (if (x.popen_new po rt).1 = 0 then
          (luaT_popen_pushsyserror x (x.popen_new po rt).2).1
        else Outcome.ret [LuaVal.lightuserdata (x.popen_new po rt).1]) := by
      have hok : lbox_popen_new_opts x [t] = Except.ok po :=
        toOption_eq_some _ _ (by rw [← lbox_popen_new_spawned x [t] rt]; exact hsp)
      unfold lbox_popen_new
      rw [hok]
      by_cases h0 : (x.popen_new po rt).1 = 0
      · simp [h0]
      · simp [h0]
    rw [lbox_popen_new_spawned] at hsp
    have hopts := toOption_eq_some _ _ hsp
    have henvb := lbox_popen_new_opts_env x [t] po hopts
    have htop : lua_arg [t] [t].length = t := rfl
    rw [htop] at henvb
    have present2 : ∀ (kv : List (LuaKey × LuaVal)) (strs : List String),
        lua_gettable x t "env" = Except.ok (LuaVal.table kv) →
        kv.map Prod.snd = strs.map LuaVal.string →
        c = (strs.length : Int) → strs.length < 2 ^ 60 →
        po.env = some (strs.map Slot.str ++ [Slot.null]) := by
      intro kv strs henv hstrs hc hb
      have hbuild := present kv strs henv hstrs hc hb
      rw [henvb] at hbuild
      by_cases hm : x.malloc_ok (8 * (strs.length + 1)) = true
      · simp only [hm, if_true, Except.ok.injEq] at hbuild
        exact hbuild
      · simp [hm] at hbuild
    refine ⟨?_, present2, ?_, hcall.1, hcall.2⟩
    · rintro ⟨h1, h2⟩
      have hbuild := build_env_absent x t c henvc h1 h2
      rw [henvb] at hbuild
      simpa using hbuild
    · intro hc henv
      have := present2 [] [] henv rfl (by simpa using hc) (by norm_num)
      simpa using this
  · intro akv f cnt a nr ht hargv hflags hargc hbuilt
    have hopts := lbox_popen_new_opts_eq x t akv f cnt ht hargv hflags hargc
    rw [hbuilt] at hopts
    constructor
    · rintro ⟨h1, h2⟩
      rw [lbox_popen_new_spawned, hopts, build_env_absent x t c henvc h1 h2]
      rfl
    · intro kv strs henv hstrs hc hb hm
      rw [lbox_popen_new_spawned, hopts, present kv strs henv hstrs hc hb]
      simp only [hm, if_true]
      rfl

/-- Witness of C3: an environment of two entries, with a spawner that
records the options it is called with. -/
theorem lbox_popen_new_env_witness :
    (lbox_popen_new recordingExternals
        [sampleOpts 512 ["ls"] 1 2 ["A=1", "B=2"]] recordingRuntime).rt.core =
      [⟨[Slot.null, Slot.null, Slot.str "ls", Slot.null], 4,
        some [Slot.str "A=1", Slot.str "B=2", Slot.null], 512⟩] ∧
    (lbox_popen_new recordingExternals
        [sampleOpts 512 ["ls"] 1 (-1) []] recordingRuntime).rt.core =
      [⟨[Slot.null, Slot.null, Slot.str "ls", Slot.null], 4, none, 512⟩] ∧
    (lbox_popen_new recordingExternals
        [sampleOpts 512 ["ls"] 1 0 []] recordingRuntime).rt.core =
      [⟨[Slot.null, Slot.null, Slot.str "ls", Slot.null], 4, some [Slot.null], 512⟩] ∧
    (⟨[Slot.null, Slot.null, Slot.str "ls", Slot.null], 4,
        some [Slot.str "A=1", Slot.str "B=2", Slot.null], 512⟩ : popen_opts).env =
      some (["A=1", "B=2"].map Slot.str ++ [Slot.null]) :=
  ⟨by rfl, by rfl, by rfl, ((lbox_popen_new_env recordingExternals
      (sampleOpts 512 ["ls"] 1 2 ["A=1", "B=2"]) recordingRuntime 2 rfl).1
      ⟨[Slot.null, Slot.null, Slot.str "ls", Slot.null], 4,
        some [Slot.str "A=1", Slot.str "B=2", Slot.null], 512⟩ (by rfl)).2.1
    [(LuaKey.num 1, LuaVal.string "A=1"), (LuaKey.num 2, LuaVal.string "B=2")]
    ["A=1", "B=2"] rfl rfl rfl (by decide)⟩

/-! ## Theorems: `info` -/

/-- C7: for every handle on which the stat query and the state query
succeed (and the core keeps its contract: a state below `POPEN_STATE_MAX`, a
command line and a state name that are not `NULL`), `info` returns one table
with exactly the eight fields pid, command, flags, state, exit_code, stdin,
stdout, stderr, where pid and flags are those the stat query reports for the
handle, the three descriptors are its slots 0, 1 and 2 as they are (so -1
stays -1), and the state name and the exit code are those of the state
query; if the stat query or the state query fails, `info` returns nil and an
error and no table. -/
theorem lbox_popen_info_result (x : Externals κ) (args : List LuaVal) (rt : Runtime κ) :
    (∀ (cmd name : String),
      (x.popen_stat (lua_touserdata (lua_arg args 1)) rt).1.1 = 0 →
      0 ≤ (x.popen_state (lua_touserdata (lua_arg args 1))
            (x.popen_stat (lua_touserdata (lua_arg args 1)) rt).2).1.1 →
      (x.popen_state (lua_touserdata (lua_arg args 1))
          (x.popen_stat (lua_touserdata (lua_arg args 1)) rt).2).1.2.1 < x.POPEN_STATE_MAX →
      x.popen_command (lua_touserdata (lua_arg args 1))
          (x.popen_state (lua_touserdata (lua_arg args 1))
            (x.popen_stat (lua_touserdata (lua_arg args 1)) rt).2).2 = some cmd →
      x.popen_state_str
          (x.popen_state (lua_touserdata (lua_arg args 1))
            (x.popen_stat (lua_touserdata (lua_arg args 1)) rt).2).1.2.1 = some name →
      (lbox_popen_info x args rt).1 =
        Outcome.ret [LuaVal.table
          [(LuaKey.str "pid",
              LuaVal.number (x.popen_stat (lua_touserdata (lua_arg args 1)) rt).1.2.pid),
            (LuaKey.str "command", LuaVal.string cmd),
            (LuaKey.str "flags",
              LuaVal.number ((x.popen_stat (lua_touserdata (lua_arg args 1)) rt).1.2.flags : Int)),
            (LuaKey.str "state", LuaVal.string name),
            (LuaKey.str "exit_code",
              LuaVal.number (x.popen_state (lua_touserdata (lua_arg args 1))
                (x.popen_stat (lua_touserdata (lua_arg args 1)) rt).2).1.2.2),
            (LuaKey.str "stdin",
              LuaVal.number ((x.popen_stat (lua_touserdata (lua_arg args 1)) rt).1.2.fds 0)),
            (LuaKey.str "stdout",
              LuaVal.number ((x.popen_stat (lua_touserdata (lua_arg args 1)) rt).1.2.fds 1)),
            (LuaKey.str "stderr",
              LuaVal.number ((x.popen_stat (lua_touserdata (lua_arg args 1)) rt).1.2.fds 2))]]) ∧
    ((x.popen_stat (lua_touserdata (lua_arg args 1)) rt).1.1 ≠ 0 ∨
      (x.popen_state (lua_touserdata (lua_arg args 1))
          (x.popen_stat (lua_touserdata (lua_arg args 1)) rt).2).1.1 < 0 →
      (lbox_popen_info x args rt).1.isErrorResult = true ∧
      ∀ kv, (lbox_popen_info x args rt).1 ≠ Outcome.ret [LuaVal.table kv]) := by
  constructor
  · intro cmd name hs hq hmax hcmd hname
    have hq2 : ¬ (x.popen_state (lua_touserdata (lua_arg args 1))
            (x.popen_stat (lua_touserdata (lua_arg args 1)) rt).2).1.1 < 0 := by omega
    simp only [lbox_popen_info, hs, ne_eq, not_true_eq_false, if_false, hq2, hmax,
      hcmd, hname, lua_pushstring, STDIN_FILENO, STDOUT_FILENO, STDERR_FILENO]
    simp [lua_settable]
  · intro h
    have herr : ∀ rt2 : Runtime κ,
        (luaT_popen_pushsyserror x rt2).1.isErrorResult = true ∧
        ∀ kv, (luaT_popen_pushsyserror x rt2).1 ≠ Outcome.ret [LuaVal.table kv] := by
      intro rt2
      rw [luaT_popen_pushsyserror_isError]
      simp [Outcome.isErrorResult]
    by_cases hs : (x.popen_stat (lua_touserdata (lua_arg args 1)) rt).1.1 = 0
    · have hq : (x.popen_state (lua_touserdata (lua_arg args 1))
          (x.popen_stat (lua_touserdata (lua_arg args 1)) rt).2).1.1 < 0 := by
        rcases h with h | h
        · exact absurd hs h
        · exact h
      simp only [lbox_popen_info, hs, ne_eq, not_true_eq_false, if_false, hq, if_true]
      exact herr _
    · simp only [lbox_popen_info, ne_eq, hs, not_false_eq_true, if_true]
      exact herr _

/-- Witness of C7: the record of a handle with a pipe on stdin and stdout. -/
theorem lbox_popen_info_result_witness :
    (lbox_popen_info (sampleExternals 0 0 7) [LuaVal.lightuserdata 7] sampleRuntime).1 =
      Outcome.ret [LuaVal.table
        [(LuaKey.str "pid", LuaVal.number 4242),
          (LuaKey.str "command", LuaVal.string "sh -c ls"),
          (LuaKey.str "flags", LuaVal.number 7),
          (LuaKey.str "state", LuaVal.string "alive"),
          (LuaKey.str "exit_code", LuaVal.number 0),
          (LuaKey.str "stdin", LuaVal.number 5),
          (LuaKey.str "stdout", LuaVal.number 6),
          (LuaKey.str "stderr", LuaVal.number (-1))]] :=
  (lbox_popen_info_result (sampleExternals 0 0 7) [LuaVal.lightuserdata 7]
      sampleRuntime).1 "sh -c ls" "alive" rfl (by decide) (by decide) rfl rfl


/-! ## Theorems: `delete` on the core of the specification -/

theorem spec_popen_delete_registered (rt : Runtime SpecCore) (p : Nat)
    (e : Nat × popen_handle)
    (h : rt.core.handles.find? (fun e => e.1 = p) = some e) :
    spec_popen_delete p rt =
      (0, { rt with core :=
        { rt.core with
          handles := rt.core.handles.filter (fun e2 => e2.1 ≠ p)
          os_log := (release_ops e.2).reverse ++ rt.core.os_log } }) := by
  simp only [spec_popen_delete, h]

theorem spec_popen_delete_unregistered (rt : Runtime SpecCore) (p : Nat)
    (h : rt.core.handles.find? (fun e => e.1 = p) = none) :
    spec_popen_delete p rt =
      (-1, { rt with errno := 3,
                     diag := some ⟨"SystemError", "popen: no such handle"⟩ }) := by
  simp only [spec_popen_delete, h]

theorem find_after_filter (hs : List (Nat × popen_handle)) (p : Nat) :
    (hs.filter (fun e2 => e2.1 ≠ p)).find? (fun e => e.1 = p) = none := by
  rw [List.find?_eq_none]
  intro e he
  have := (List.mem_filter.mp he).2
  simpa using this

/-- What a successful return of `lbox_popen_new` says about the spawner
call. -/
theorem lbox_popen_new_returns_handle (x : Externals κ) (args : List LuaVal)
    (rt : Runtime κ) (p : Nat)
    (hret : (lbox_popen_new x args rt).out = Outcome.ret [LuaVal.lightuserdata p]) :
    ∃ opts, lbox_popen_new_opts x args = Except.ok opts ∧
      (x.popen_new opts rt).1 = p ∧ p ≠ 0 ∧
      (lbox_popen_new x args rt).rt = (x.popen_new opts rt).2 := by
  unfold lbox_popen_new at hret ⊢
  cases hopts : lbox_popen_new_opts x args with
  | error f =>
    rw [hopts] at hret
    cases f <;> simp [Fault.toOutcome] at hret
  | ok opts =>
    rw [hopts] at hret
    refine ⟨opts, rfl, ?_⟩
    by_cases h0 : (x.popen_new opts rt).1 = 0
    · simp [h0, luaT_popen_pushsyserror_isError] at hret
    · simp only [h0, if_false, Outcome.ret.injEq, List.cons.injEq,
        LuaVal.lightuserdata.injEq, and_true] at hret
      simp only [h0, if_false]
      exact ⟨hret, by rw [← hret]; exact h0, trivial⟩

/-- C6: on the core of the specification, for every handle `new` returns,
the first `delete` returns `true`, the second `delete` returns nil and an
error, and the second call leaves the core as it was: no handle is touched
and no operation is performed on a resource of the operating system. -/
theorem lbox_popen_delete_twice (x : Externals SpecCore)
    (hnew : x.popen_new = spec_popen_new)
    (hdel : x.popen_delete = spec_popen_delete)
    (args : List LuaVal) (rt : Runtime SpecCore) (p : Nat)
    (hret : (lbox_popen_new x args rt).out = Outcome.ret [LuaVal.lightuserdata p]) :
    (lbox_popen_delete x [LuaVal.lightuserdata p] (lbox_popen_new x args rt).rt).1 =
      Outcome.ret [LuaVal.boolean true] ∧
    (lbox_popen_delete x [LuaVal.lightuserdata p]
      (lbox_popen_delete x [LuaVal.lightuserdata p]
        (lbox_popen_new x args rt).rt).2).1.isErrorResult = true ∧
    (lbox_popen_delete x [LuaVal.lightuserdata p]
      (lbox_popen_delete x [LuaVal.lightuserdata p]
        (lbox_popen_new x args rt).rt).2).2.core =
      (lbox_popen_delete x [LuaVal.lightuserdata p] (lbox_popen_new x args rt).rt).2.core := by
  obtain ⟨opts, -, hp, hp0, hrt⟩ := lbox_popen_new_returns_handle x args rt p hret
  rw [hrt, hnew]
  rw [hnew] at hp
  -- the handle is registered after `new`
  have hreg : ∃ e, (spec_popen_new opts rt).2.core.handles.find? (fun e => e.1 = p) = some e := by
    unfold spec_popen_new at hp ⊢
    by_cases h1 : opts.nr_argv < 1
    · simp [h1] at hp; omega
    · cases hs : rt.core.spawn opts with
      | none => simp [h1, hs] at hp; omega
      | some h =>
        simp only [h1, if_false, hs] at hp ⊢
        exact ⟨(p, { h with state := HandleState.ALIVE }), by simp [List.find?, hp]⟩
  obtain ⟨e, he⟩ := hreg
  have hargs : lua_touserdata (lua_arg [LuaVal.lightuserdata p] 1) = p := rfl
  have d1 : lbox_popen_delete x [LuaVal.lightuserdata p] (spec_popen_new opts rt).2 =
      (Outcome.ret [LuaVal.boolean true],
        (spec_popen_delete p (spec_popen_new opts rt).2).2) := by
    simp only [lbox_popen_delete, hargs, hp0, if_false, hdel,
      spec_popen_delete_registered _ p e he]
    simp
  rw [d1]
  have hnone : (spec_popen_delete p (spec_popen_new opts rt).2).2.core.handles.find?
      (fun e => e.1 = p) = none := by
    rw [spec_popen_delete_registered _ p e he]
    exact find_after_filter _ p
  have d2 : lbox_popen_delete x [LuaVal.lightuserdata p]
      (spec_popen_delete p (spec_popen_new opts rt).2).2 =
      (Outcome.ret [LuaVal.nil, LuaVal.error "SystemError" "popen: no such handle"],
        { (spec_popen_delete p (spec_popen_new opts rt).2).2 with
          errno := 3, diag := some ⟨"SystemError", "popen: no such handle"⟩ }) := by
    simp only [lbox_popen_delete, hargs, hp0, if_false, hdel,
      spec_popen_delete_unregistered _ p hnone]
    simp [luaT_push_nil_and_error]
  rw [d2]
  exact ⟨rfl, rfl, rfl⟩

/-- Witness of C6: a command run through the shell, deleted twice. -/
theorem lbox_popen_delete_twice_witness :
    (lbox_popen_new specExternals [sampleOpts 512 ["ls"] 1 (-1) []]
        sampleSpecRuntime).out = Outcome.ret [LuaVal.lightuserdata 1] ∧
    (lbox_popen_delete specExternals [LuaVal.lightuserdata 1]
      (lbox_popen_delete specExternals [LuaVal.lightuserdata 1]
        (lbox_popen_new specExternals [sampleOpts 512 ["ls"] 1 (-1) []]
          sampleSpecRuntime).rt).2).1.isErrorResult = true :=
  ⟨by rfl, (lbox_popen_delete_twice specExternals rfl rfl
      [sampleOpts 512 ["ls"] 1 (-1) []] sampleSpecRuntime 1 (by rfl)).2.1⟩

end Popen

namespace MpUuid

/-! ## Theorems: the uuid codec -/

theorem i8_u8 (t : Int) (h1 : -128 ≤ t) (h2 : t ≤ 127) : i8 (u8 t) = t := by
  unfold i8 u8
  simp only
  split <;> omega

theorem drop_pre (pre l : List Byte) (k : Nat) :
    (pre ++ l).drop (pre.length + k) = l.drop k := by
  induction pre with
  | nil => simp
  | cons b bs ih =>
    have : (b :: bs).length + k = (bs.length + k) + 1 := by simp; omega
    rw [this]
    simp

/-- Decoding a buffer that holds, at the cursor, the header `0xd8`, the
type byte and the 16 bytes of a valid uuid. -/
theorem mp_decode_uuid_shape (validate : tt_uuid → Int) (T : Int)
    (pre rest : List Byte) (uuid out0 : tt_uuid)
    (h1 : -128 ≤ T) (h2 : T ≤ 127) (hv : validate uuid = 0) :
    mp_decode_uuid validate T (pre ++ (u8 0xd8 :: u8 T :: (uuid.bytes ++ rest)))
        pre.length out0 =
      some ⟨some uuid, pre.length + 18, uuid⟩ := by
  have hd0 : (pre ++ (u8 0xd8 :: u8 T :: (uuid.bytes ++ rest))).drop pre.length =
      u8 0xd8 :: u8 T :: (uuid.bytes ++ rest) := by
    simp
  have hd1 : (pre ++ (u8 0xd8 :: u8 T :: (uuid.bytes ++ rest))).drop (pre.length + 1) =
      u8 T :: (uuid.bytes ++ rest) := by
    simp
  have hd2 : (pre ++ (u8 0xd8 :: u8 T :: (uuid.bytes ++ rest))).drop (pre.length + 1 + 1) =
      uuid.bytes ++ rest := by
    have := drop_pre pre (u8 0xd8 :: u8 T :: (uuid.bytes ++ rest)) 2
    rw [show pre.length + 1 + 1 = pre.length + 2 from rfl, this]
    rfl
  have hl0 : load_u8 (pre ++ (u8 0xd8 :: u8 T :: (uuid.bytes ++ rest))) pre.length =
      some (u8 0xd8, pre.length + 1) := by
    simp only [load_u8, hd0]
  have hl1 : load_u8 (pre ++ (u8 0xd8 :: u8 T :: (uuid.bytes ++ rest))) (pre.length + 1) =
      some (u8 T, pre.length + 1 + 1) := by
    simp only [load_u8, hd1]
  have hty : mp_typeof (u8 0xd8) = mp_type.MP_EXT := by decide
  have hc : (u8 0xd8).val = 0xd8 := by decide
  have hext : mp_decode_extl (pre ++ (u8 0xd8 :: u8 T :: (uuid.bytes ++ rest))) pre.length =
      some (16, T, pre.length + 1 + 1) := by
    simp only [mp_decode_extl, hl0, hc]
    simp [hl1, i8_u8 T h1 h2]
  have hlu : load_uuid (pre ++ (u8 0xd8 :: u8 T :: (uuid.bytes ++ rest)))
      (pre.length + 1 + 1) = some uuid := by
    have hlen : pre.length + 1 + 1 + 16 ≤
        (pre ++ (u8 0xd8 :: u8 T :: (uuid.bytes ++ rest))).length := by
      simp [uuid.size]; omega
    simp only [load_uuid, hlen, dite_true, hd2, Option.some.injEq]
    cases uuid with
    | mk bytes size =>
      simp only [tt_uuid.mk.injEq]
      rw [← size]
      simp
  simp only [mp_decode_uuid, hl0, hty, ne_eq, not_true_eq_false, if_false, hext,
    uuid_unpack, hlu, hv]
  simp

/-- The memory `mp_encode_uuid` leaves: the header `0xd8`, the type byte
and the 16 bytes of the uuid at the cursor, the rest untouched. -/
theorem mp_encode_uuid_shape (T : Int) (mem : List Byte) (data : Nat) (uuid : tt_uuid)
    (hfit : data + 18 ≤ mem.length) :
    mp_encode_uuid T mem data uuid =
      some (mem.take data ++ (u8 0xd8 :: u8 T :: (uuid.bytes ++ mem.drop (data + 18))),
        data + 18) := by
  have hhead : mp_encode_extl T 16 = [u8 0xd8, u8 T] := rfl
  have hs1 : store_bytes mem data [u8 0xd8, u8 T] =
      some (mem.take data ++ [u8 0xd8, u8 T] ++ mem.drop (data + 2)) := by
    have : data + [u8 0xd8, u8 T].length ≤ mem.length := by simp; omega
    simp only [store_bytes, this, if_true]
    rfl
  have htl : (mem.take data).length = data := by
    rw [List.length_take]; omega
  have hlen1 : (mem.take data ++ [u8 0xd8, u8 T] ++ mem.drop (data + 2)).length =
      mem.length := by
    simp only [List.length_append, htl, List.length_drop, List.length_cons,
      List.length_nil]
    omega
  have htake : (mem.take data ++ [u8 0xd8, u8 T] ++ mem.drop (data + 2)).take (data + 2) =
      mem.take data ++ [u8 0xd8, u8 T] := by
    have : (mem.take data ++ [u8 0xd8, u8 T]).length = data + 2 := by simp [htl]
    rw [← this, List.take_left']
    rfl
  have hdrop : (mem.take data ++ [u8 0xd8, u8 T] ++ mem.drop (data + 2)).drop
      (data + 2 + 16) = mem.drop (data + 18) := by
    have : (mem.take data ++ [u8 0xd8, u8 T]).length = data + 2 := by simp [htl]
    rw [← this, drop_pre, List.drop_drop]
    congr 1
    omega
  simp only [mp_encode_uuid, mp_encode_ext, uuid.size, hhead, hs1]
  simp only [store_bytes, hlen1, uuid.size, List.length_cons, List.length_nil, htake, hdrop]
  have : data + (0 + 1 + 1) + 16 ≤ mem.length := by omega
  simp [this]

/-- C8: for every uuid that passes validation, `mp_encode_uuid` writes
`mp_sizeof_uuid()` bytes at the cursor and returns the position just after
them, and `mp_decode_uuid` on the bytes written returns a uuid equal to the
original and leaves the read cursor `mp_sizeof_uuid()` bytes past the start,
at the position `mp_encode_uuid` returned. -/
theorem mp_uuid_roundtrip (validate : tt_uuid → Int) (MP_UUID : Int)
    (mem : List Byte) (data : Nat) (uuid out0 : tt_uuid)
    (hlo : -128 ≤ MP_UUID) (hhi : MP_UUID ≤ 127)
    (hvalid : validate uuid = 0)
    (hfit : data + mp_sizeof_uuid ≤ mem.length) :
    ∃ mem2 : List Byte,
      mp_encode_uuid MP_UUID mem data uuid = some (mem2, data + mp_sizeof_uuid) ∧
      mp_decode_uuid validate MP_UUID mem2 data out0 =
        some ⟨some uuid, data + mp_sizeof_uuid, uuid⟩ := by
  have hsz : mp_sizeof_uuid = 18 := rfl
  rw [hsz] at hfit ⊢
  refine ⟨_, mp_encode_uuid_shape MP_UUID mem data uuid hfit, ?_⟩
  have htl : (mem.take data).length = data := by
    rw [List.length_take]; omega
  have := mp_decode_uuid_shape validate MP_UUID (mem.take data) (mem.drop (data + 18))
    uuid out0 hlo hhi hvalid
  rw [htl] at this
  exact this

/-- Witness of C8: the uuid 00 01 .. 0f written at offset 3 of a buffer of
24 zero bytes, with the extension type 2. -/
theorem mp_uuid_roundtrip_witness :
    ∃ mem2 : List Byte,
      mp_encode_uuid 2 (List.replicate 24 0) 3 sampleUuid = some (mem2, 3 + mp_sizeof_uuid) ∧
      mp_decode_uuid sampleValidate 2 mem2 3 nilUuid =
        some ⟨some sampleUuid, 3 + mp_sizeof_uuid, sampleUuid⟩ :=
  mp_uuid_roundtrip sampleValidate 2 (List.replicate 24 0) 3 sampleUuid nilUuid
    (by decide) (by decide) (by decide) (by decide)

end MpUuid

namespace MpUuid

/-- C11: whenever `mp_decode_uuid` fails, that is returns `NULL`, the read
cursor is at the position it had on entry, and the failure is one of: the
value is not an extension, the extension type is not the UUID type, the
payload length is not the size of a uuid, the uuid fails validation.
Conversely each of these four cases does make `mp_decode_uuid` return `NULL`
with the cursor at its entry position. -/
theorem mp_decode_uuid_failure (validate : tt_uuid → Int) (MP_UUID : Int)
    (mem : List Byte) (data : Nat) (uuid : tt_uuid) :
    (∀ r : Decoded, mp_decode_uuid validate MP_UUID mem data uuid = some r →
      r.ret = none →
      r.data = data ∧
      ((∃ c d, load_u8 mem data = some (c, d) ∧ mp_typeof c ≠ mp_type.MP_EXT) ∨
       (∃ len type d1, mp_decode_extl mem data = some (len, type, d1) ∧
          (type ≠ MP_UUID ∨ len ≠ 16 ∨
            ∃ u, load_uuid mem d1 = some u ∧ validate u ≠ 0)))) ∧
    (∀ c d, load_u8 mem data = some (c, d) → mp_typeof c ≠ mp_type.MP_EXT →
      mp_decode_uuid validate MP_UUID mem data uuid = some ⟨none, data, uuid⟩) ∧
    (∀ c d len type d1, load_u8 mem data = some (c, d) →
      mp_typeof c = mp_type.MP_EXT →
      mp_decode_extl mem data = some (len, type, d1) →
      (type ≠ MP_UUID →
        mp_decode_uuid validate MP_UUID mem data uuid = some ⟨none, data, uuid⟩) ∧
      (type = MP_UUID → len ≠ 16 →
        mp_decode_uuid validate MP_UUID mem data uuid = some ⟨none, data, uuid⟩) ∧
      (type = MP_UUID → len = 16 →
        ∀ u, load_uuid mem d1 = some u → validate u ≠ 0 →
          mp_decode_uuid validate MP_UUID mem data uuid = some ⟨none, data, u⟩)) := by
  refine ⟨?_, ?_, ?_⟩
  · intro r hr hret
    unfold mp_decode_uuid at hr
    cases h0 : load_u8 mem data with
    | none => simp [h0] at hr
    | some cd =>
      obtain ⟨c, d⟩ := cd
      simp only [h0] at hr
      by_cases hty : mp_typeof c ≠ mp_type.MP_EXT
      · rw [if_pos hty, Option.some.injEq] at hr
        subst hr
        exact ⟨rfl, Or.inl ⟨c, d, rfl, hty⟩⟩
      · rw [if_neg hty] at hr
        cases h1 : mp_decode_extl mem data with
        | none => simp [h1] at hr
        | some v =>
          obtain ⟨len, type, d1⟩ := v
          simp only [h1] at hr
          by_cases htype : type ≠ MP_UUID
          · rw [if_pos htype, Option.some.injEq] at hr
            subst hr
            exact ⟨rfl, Or.inr ⟨len, type, d1, rfl, Or.inl htype⟩⟩
          · rw [if_neg htype] at hr
            unfold uuid_unpack at hr
            by_cases hlen : len ≠ 16
            · rw [if_pos hlen] at hr
              simp only [if_true, Option.some.injEq] at hr
              subst hr
              exact ⟨rfl, Or.inr ⟨len, type, d1, rfl, Or.inr (Or.inl hlen)⟩⟩
            · rw [if_neg hlen] at hr
              cases h2 : load_uuid mem d1 with
              | none => simp [h2] at hr
              | some u =>
                simp only [h2] at hr
                by_cases hv : validate u ≠ 0
                · rw [if_pos hv] at hr
                  simp only [if_true, Option.some.injEq] at hr
                  subst hr
                  exact ⟨rfl, Or.inr ⟨len, type, d1, rfl, Or.inr (Or.inr ⟨u, h2, hv⟩)⟩⟩
                · rw [if_neg hv] at hr
                  simp only [reduceCtorEq, if_false, Option.some.injEq] at hr
                  subst hr
                  simp at hret
  · intro c d h0 hty
    simp only [mp_decode_uuid, h0]
    rw [if_pos hty]
  · intro c d len type d1 h0 hty h1
    have hty2 : ¬ mp_typeof c ≠ mp_type.MP_EXT := by simp [hty]
    have hstart : mp_decode_uuid validate MP_UUID mem data uuid =
        if type ≠ MP_UUID then some ⟨none, data, uuid⟩
        else
          match uuid_unpack validate mem d1 len uuid with
          | none => none
          | some r =>
            if r.ret = none then some ⟨none, data, r.uuid⟩
            else some ⟨some r.uuid, r.data, r.uuid⟩ := by
      simp only [mp_decode_uuid, h0]
      rw [if_neg hty2]
      simp only [h1]
    rw [hstart]
    refine ⟨?_, ?_, ?_⟩
    · intro htype
      rw [if_pos htype]
    · intro htype hlen
      have htype2 : ¬ type ≠ MP_UUID := by simp [htype]
      rw [if_neg htype2]
      unfold uuid_unpack
      rw [if_pos hlen]
      simp
    · intro htype hlen u hu hv
      have htype2 : ¬ type ≠ MP_UUID := by simp [htype]
      have hlen2 : ¬ len ≠ 16 := by simp [hlen]
      rw [if_neg htype2]
      unfold uuid_unpack
      rw [if_neg hlen2]
      simp only [hu]
      rw [if_pos hv]
      simp

/-- Witness of C11: an extension of the UUID type whose 16 bytes fail the
validation, read at offset 1. -/
theorem mp_decode_uuid_failure_witness :
    mp_decode_uuid sampleValidate 2 (0 :: 0xd8 :: 2 :: List.replicate 16 255) 1 nilUuid =
      some ⟨none, 1, badUuid⟩ ∧
    (⟨none, 1, badUuid⟩ : Decoded).data = 1 :=
  ⟨by decide,
    ((mp_decode_uuid_failure sampleValidate 2 (0 :: 0xd8 :: 2 :: List.replicate 16 255) 1
      nilUuid).1 ⟨none, 1, badUuid⟩ (by decide) rfl).1⟩

end MpUuid
